import Mathlib

/-!
Endpoints reconciliation of the OVN controller (`go-controller/pkg/ovn/endpoints.go`).

A shallow embedding of `getLbEndpoints`, `AddEndpoints`, `handleNodePortLB`,
`handleExternalIPs` and `deleteEndpoints`.

* Go strings are `String`, `int32` values are `Int` (the code does no arithmetic on them).
* A Go `map[string]lbEndpoints` is an association list with pairwise distinct keys; the
  order in which `range` visits it is a parameter of the environment.
* The collaborators that live outside the file (Kubernetes accessors, load-balancer
  client, configuration, `wait.Poll`) are the fields of `World`.  Every call is recorded
  in a trace, labelled with the loop iteration that issued it; the answer to a call may
  depend on that label, so that each call can succeed or fail on its own.
* A Go runtime fault (assignment to an entry of a nil map) is an explicit outcome.
-/

namespace Ovn

/-! ## Data model (the fields of the Kubernetes objects that the code reads) -/

/-- The `kapi.ProtocolTCP` constant. -/
def ProtocolTCP : String := "TCP"

/-- The `kapi.ProtocolUDP` constant. -/
def ProtocolUDP : String := "UDP"

/-- The `kapi.EndpointAddress` type. -/
structure EndpointAddress where
  IP : String
deriving DecidableEq, Repr

/-- The `kapi.EndpointPort` type. -/
structure EndpointPort where
  Name : String
  Port : Int
  Protocol : String
deriving DecidableEq, Repr

/-- The `kapi.EndpointSubset` type. -/
structure EndpointSubset where
  Addresses : List EndpointAddress
  Ports : List EndpointPort
deriving DecidableEq, Repr

/-- The `kapi.Endpoints` type. -/
structure Endpoints where
  Namespace : String
  Name : String
  Subsets : List EndpointSubset
deriving DecidableEq, Repr

/-- The `kapi.ServicePort` type. -/
structure ServicePort where
  Name : String
  Protocol : String
  Port : Int
  NodePort : Int
deriving DecidableEq, Repr

/-- The `kapi.ServiceSpec` type. -/
structure ServiceSpec where
  Ports : List ServicePort
  ClusterIP : String
  ExternalIPs : List String
  ServiceType : String
deriving DecidableEq, Repr

/-- The `kapi.Service` type. -/
structure Service where
  Name : String
  Spec : ServiceSpec
deriving DecidableEq, Repr

/-- The `kapi.Node` type. -/
structure Node where
  Name : String
deriving DecidableEq, Repr

/-- The `lbEndpoints` struct (lines 14-17). -/
structure lbEndpoints where
  IPs : List String
  Port : Int
deriving DecidableEq, Repr

/-! ## Go maps -/

/-- A non-nil `map[string]lbEndpoints`: its entries, keys pairwise distinct. -/
abbrev PortMap := List (String × lbEndpoints)

/-- The read `m[k]` with the comma-ok form. -/
def mapGet : PortMap → String → Option lbEndpoints
  | [], _ => none
  | (k1, v) :: rest, k => if k1 = k then some v else mapGet rest k

/-- The write `m[k] = v`: overwrite the entry of `k`, or add one. -/
def mapSet : PortMap → String → lbEndpoints → PortMap
  | [], k, v => [(k, v)]
  | (k1, v1) :: rest, k, v => if k1 = k then (k, v) :: rest else (k1, v1) :: mapSet rest k v

/-- The two maps that `getLbEndpoints` fills in place. -/
structure PortMaps where
  tcpPortMap : PortMap
  udpPortMap : PortMap
deriving DecidableEq, Repr

/-- What the local variable `portMap` (line 24) refers to: it is declared nil and is
bound to one of the two caller maps only for UDP and TCP (lines 25-29). -/
inductive MapRef where
  | nilMap
  | tcpPortMap
  | udpPortMap
deriving DecidableEq, Repr

/-- Lines 25-29: the map selected by the protocol of a port entry. -/
def selectMap (port : EndpointPort) : MapRef :=
  if port.Protocol = ProtocolUDP then MapRef.udpPortMap
  else if port.Protocol = ProtocolTCP then MapRef.tcpPortMap
  else MapRef.nilMap

/-- Reading through `portMap`; reading a nil map finds nothing. -/
def readMap : MapRef → PortMaps → String → Option lbEndpoints
  | MapRef.nilMap, _, _ => none
  | MapRef.tcpPortMap, maps, k => mapGet maps.tcpPortMap k
  | MapRef.udpPortMap, maps, k => mapGet maps.udpPortMap k

/-- Writing through `portMap`; `none` is the Go runtime fault
"assignment to entry in nil map". -/
def writeMap : MapRef → PortMaps → String → lbEndpoints → Option PortMaps
  | MapRef.nilMap, _, _, _ => none
  | MapRef.tcpPortMap, maps, k, v => some { maps with tcpPortMap := mapSet maps.tcpPortMap k v }
  | MapRef.udpPortMap, maps, k, v => some { maps with udpPortMap := mapSet maps.udpPortMap k v }

/-! ## getLbEndpoints (lines 19-41) -/

/-- Lines 23-36, the body of the innermost loop. -/
def lbEndpointsBody (ip : EndpointAddress) (port : EndpointPort) (maps : PortMaps) :
    Option PortMaps :=
  let portMap := selectMap port
  let ips : List String :=
    match readMap portMap maps port.Name with
    | some lbEps => lbEps.IPs
    | none => []
  writeMap portMap maps port.Name { IPs := ips ++ [ip.IP], Port := port.Port }

/-- Line 22, `for _, port := range s.Ports`. -/
def portsLoop (ip : EndpointAddress) : List EndpointPort → PortMaps → Option PortMaps
  | [], maps => some maps
  | port :: rest, maps =>
    match lbEndpointsBody ip port maps with
    | none => none
    | some maps1 => portsLoop ip rest maps1

/-- Line 21, `for _, ip := range s.Addresses`. -/
def addressesLoop (ports : List EndpointPort) : List EndpointAddress → PortMaps → Option PortMaps
  | [], maps => some maps
  | ip :: rest, maps =>
    match portsLoop ip ports maps with
    | none => none
    | some maps1 => addressesLoop ports rest maps1

/-- Line 20, `for _, s := range ep.Subsets`. -/
def subsetsLoop : List EndpointSubset → PortMaps → Option PortMaps
  | [], maps => some maps
  | s :: rest, maps =>
    match addressesLoop s.Ports s.Addresses maps with
    | none => none
    | some maps1 => subsetsLoop rest maps1

/-- The function `getLbEndpoints`: the maps after the call, or `none` when it faults. -/
def getLbEndpoints (ep : Endpoints) (tcpPortMap udpPortMap : PortMap) : Option PortMaps :=
  subsetsLoop ep.Subsets { tcpPortMap := tcpPortMap, udpPortMap := udpPortMap }

/-! ## Collaborators and traces -/

/-- Label of the loop iteration that issues a collaborator call.  In `AddEndpoints` and
`deleteEndpoints`: `[]` outside the loops, `[i]` for the declared service port of index
`i`, `[i, j]` for external IP `j` of that port.  In `handleNodePortLB`: `[k]` for poll
iteration `k`, then `[]`, `[a]`, `[a, b]`, `[a, b, i]` for namespace `a`, Endpoints
object `b` and declared service port `i`. -/
abbrev Site := List Nat

/-- A call to a collaborator, with its arguments. -/
inductive Call where
  | GetService (ns name : String)
  | GetNamespaces
  | GetEndpoints (ns : String)
  | createGatewaysVIP (protocol : String) (port targetPort : Int) (ips : List String)
  | getLoadBalancer (protocol : String)
  | createLoadBalancerVIP (lb vip : String) (port : Int) (ips : List String) (targetPort : Int)
  | getDefaultGatewayLoadBalancer (protocol : String)
  | getGatewayLoadBalancer (physicalGateway protocol : String)
  | getGatewayPhysicalIP (physicalGateway : String)
  | RunOVNNbctl (args : List String)
deriving DecidableEq, Repr

/-- One entry of the trace: which iteration issued which call. -/
structure Event where
  site : Site
  call : Call
deriving DecidableEq, Repr

/-- How a Go function ended: it returned (with its `error` value, `none` for nil), or a
runtime fault unwound it. -/
inductive Outcome where
  | returned (err : Option String)
  | panicked
deriving DecidableEq, Repr

/-- The environment of the file.  Each field is one collaborator that the file calls
but does not define; the answer to a call may depend on the iteration that issues it and
on the arguments, so that every call can succeed or fail on its own.

* `GetService`, `GetNamespaces`, `GetEndpoints`: `ovn.kube`, `none` when `err != nil`
  (`GetNamespaces` yields the names of `namespaces.Items`);
* `IsClusterIPSet`, `ServiceTypeHasNodePort`, `ServiceTypeHasClusterIP`: package `util`;
* `NodeportEnable`: `config.Gateway.NodeportEnable`;
* `createGatewaysVIP`, `createLoadBalancerVIP`: `true` when `err == nil`;
* `getLoadBalancer`: `none` when `err != nil`;
* `getDefaultGatewayLoadBalancer`, `getGatewayLoadBalancer`, `getGatewayPhysicalIP`: the
  string returned (the error of the last two is discarded by the code);
* `RunOVNNbctl`: `true` when `err == nil`;
* `pollAttempts`: how many times `wait.Poll` evaluates its condition before the 300 s
  ceiling is reached;
* `mapOrder`: the order in which a `range` statement visits a map. -/
structure World where
  GetService : Site → String → String → Option Service
  GetNamespaces : Option (List String)
  GetEndpoints : Site → String → Option (List Endpoints)
  IsClusterIPSet : Service → Bool
  ServiceTypeHasNodePort : Service → Bool
  ServiceTypeHasClusterIP : Service → Bool
  NodeportEnable : Bool
  createGatewaysVIP : Site → String → Int → Int → List String → Bool
  getLoadBalancer : Site → String → Option String
  createLoadBalancerVIP : Site → String → String → Int → List String → Int → Bool
  getDefaultGatewayLoadBalancer : Site → String → String
  getGatewayLoadBalancer : Site → String → String → String
  getGatewayPhysicalIP : Site → String → String
  RunOVNNbctl : Site → List String → Bool
  pollAttempts : Nat
  mapOrder : Site → PortMap → PortMap
  mapOrder_perm : ∀ s m, (mapOrder s m).Perm m

/-! ## handleExternalIPs (lines 202-218) -/

/-- Lines 208-216, the body of the loop over `svc.Spec.ExternalIPs`, for the external
IP of index `j`. -/
def externalIPBody (W : World) (site : Site) (svcPort : ServicePort) (ips : List String)
    (targetPort : Int) (j : Nat) (extIP : String) : List Event :=
  let lb := W.getDefaultGatewayLoadBalancer (site ++ [j]) svcPort.Protocol
  { site := site ++ [j], call := Call.getDefaultGatewayLoadBalancer svcPort.Protocol } ::
    (if lb = "" then []
     else [{ site := site ++ [j],
             call := Call.createLoadBalancerVIP lb extIP svcPort.Port ips targetPort }])

/-- The function `handleExternalIPs`: the calls it issues. -/
def handleExternalIPs (W : World) (site : Site) (svc : Service) (svcPort : ServicePort)
    (ips : List String) (targetPort : Int) : List Event :=
  if svc.Spec.ExternalIPs.length = 0 then []
  else svc.Spec.ExternalIPs.enum.flatMap
    (fun je => externalIPBody W site svcPort ips targetPort je.1 je.2)

/-! ## AddEndpoints (lines 44-127) -/

/-- Lines 76-91 (and 107-122): the cluster-IP branch for one declared service port. -/
def clusterIPBranch (W : World) (svc : Service) (i : Nat) (svcPort : ServicePort)
    (ips : List String) (targetPort : Int) : List Event :=
  if W.ServiceTypeHasClusterIP svc then
    { site := [i], call := Call.getLoadBalancer svcPort.Protocol } ::
      (match W.getLoadBalancer [i] svcPort.Protocol with
       | none => []
       | some loadBalancer =>
         { site := [i],
           call := Call.createLoadBalancerVIP loadBalancer svc.Spec.ClusterIP svcPort.Port
             ips targetPort } ::
           (if W.createLoadBalancerVIP [i] loadBalancer svc.Spec.ClusterIP svcPort.Port
                ips targetPort
            then handleExternalIPs W [i] svc svcPort ips targetPort
            else []))
  else []

/-- Lines 68-91 (and 100-122): what is done for a declared service port that matches
the backend-table entry being visited. -/
def servicePortBody (W : World) (svc : Service) (i : Nat) (svcPort : ServicePort)
    (ips : List String) (targetPort : Int) : List Event :=
  if W.ServiceTypeHasNodePort svc && W.NodeportEnable then
    { site := [i],
      call := Call.createGatewaysVIP svcPort.Protocol svcPort.NodePort targetPort ips } ::
      (if W.createGatewaysVIP [i] svcPort.Protocol svcPort.NodePort targetPort ips
       then clusterIPBranch W svc i svcPort ips targetPort
       else [])
  else clusterIPBranch W svc i svcPort ips targetPort

/-- Lines 66-93 (and 98-124): `for _, svcPort := range svc.Spec.Ports` for the entry
`svcPortName -> lbEps` of the map of protocol `proto`. -/
def servicePortsLoop (W : World) (svc : Service) (proto : String) (svcPortName : String)
    (lbEps : lbEndpoints) : List Event :=
  svc.Spec.Ports.enum.flatMap (fun isp =>
    if isp.2.Protocol = proto ∧ isp.2.Name = svcPortName
    then servicePortBody W svc isp.1 isp.2 lbEps.IPs lbEps.Port
    else [])

/-- Lines 63-94 (and 95-125): `for svcPortName, lbEps := range portMap`, the entries
taken in the order `visited`. -/
def portMapLoop (W : World) (svc : Service) (proto : String) (visited : PortMap) : List Event :=
  visited.flatMap (fun kv => servicePortsLoop W svc proto kv.1 kv.2)

/-- The function `AddEndpoints`: the calls it issues and how it ends. -/
def AddEndpoints (W : World) (ep : Endpoints) : List Event × Outcome :=
  let getSvc : Event := { site := [], call := Call.GetService ep.Namespace ep.Name }
  match W.GetService [] ep.Namespace ep.Name with
  | none => ([getSvc], Outcome.returned none)
  | some svc =>
    if !W.IsClusterIPSet svc then ([getSvc], Outcome.returned none)
    else
      match getLbEndpoints ep [] [] with
      | none => ([getSvc], Outcome.panicked)
      | some maps =>
        (getSvc ::
          (portMapLoop W svc ProtocolTCP (W.mapOrder [0] maps.tcpPortMap) ++
           portMapLoop W svc ProtocolUDP (W.mapOrder [1] maps.udpPortMap)),
         Outcome.returned none)

/-! ## deleteEndpoints (lines 220-250) -/

/-- Line 241: `fmt.Sprintf("\"%s:%d\"", svc.Spec.ClusterIP, svcPort.Port)`. -/
def vipKey (clusterIP : String) (port : Int) : String :=
  "\"" ++ clusterIP ++ ":" ++ toString port ++ "\""

/-- Lines 234-247, the body of the loop over the declared service ports. -/
def deletePortBody (W : World) (svc : Service) (i : Nat) (svcPort : ServicePort) : List Event :=
  { site := [i], call := Call.getLoadBalancer svcPort.Protocol } ::
    (match W.getLoadBalancer [i] svcPort.Protocol with
     | none => []
     | some lb =>
       [{ site := [i],
          call := Call.RunOVNNbctl
            ["remove", "load_balancer", lb, "vips", vipKey svc.Spec.ClusterIP svcPort.Port] }])

/-- The function `deleteEndpoints`: the calls it issues and how it ends. -/
def deleteEndpoints (W : World) (ep : Endpoints) : List Event × Outcome :=
  let getSvc : Event := { site := [], call := Call.GetService ep.Namespace ep.Name }
  match W.GetService [] ep.Namespace ep.Name with
  | none => ([getSvc], Outcome.returned none)
  | some svc =>
    if !W.IsClusterIPSet svc then ([getSvc], Outcome.returned none)
    else
      (getSvc :: svc.Spec.Ports.enum.flatMap (fun isp => deletePortBody W svc isp.1 isp.2),
       Outcome.returned none)

/-! ## handleNodePortLB (lines 129-200) -/

/-- Modelled from the spec: the package constant `TCP`, declared outside the file; the
protocol name passed to `getGatewayLoadBalancer` for the TCP gateway load balancer. -/
def TCP : String := "TCP"

/-- Modelled from the spec: the package constant `UDP`, declared outside the file; the
protocol name passed to `getGatewayLoadBalancer` for the UDP gateway load balancer. -/
def UDP : String := "UDP"

/-- The three values the poll leaves in `k8sNSLbTCP`, `k8sNSLbUDP` and `physicalIP`. -/
structure GatewayState where
  k8sNSLbTCP : String
  k8sNSLbUDP : String
  physicalIP : String
deriving DecidableEq, Repr

/-- Lines 133-143, the poll condition at iteration `k`: its calls, and the three values
when it answers `true`. -/
def pollCondition (W : World) (physicalGateway : String) (k : Nat) :
    List Event × Option GatewayState :=
  let k8sNSLbTCP := W.getGatewayLoadBalancer [k] physicalGateway TCP
  let e1 : Event := { site := [k], call := Call.getGatewayLoadBalancer physicalGateway TCP }
  if k8sNSLbTCP = "" then ([e1], none)
  else
    let k8sNSLbUDP := W.getGatewayLoadBalancer [k] physicalGateway UDP
    let e2 : Event := { site := [k], call := Call.getGatewayLoadBalancer physicalGateway UDP }
    if k8sNSLbUDP = "" then ([e1, e2], none)
    else
      let physicalIP := W.getGatewayPhysicalIP [k] physicalGateway
      let e3 : Event := { site := [k], call := Call.getGatewayPhysicalIP physicalGateway }
      if physicalIP = "" then ([e1, e2, e3], none)
      else ([e1, e2, e3],
            some { k8sNSLbTCP := k8sNSLbTCP, k8sNSLbUDP := k8sNSLbUDP, physicalIP := physicalIP })

/-- The call `wait.Poll(500ms, 300s, condition)`: the condition is evaluated at
iterations `k`, `k + 1`, ... until it answers `true` or the `attempts` evaluations that
fit before the ceiling are used up (`none`: the poll returns the timeout error). -/
def pollLoop (W : World) (physicalGateway : String) : Nat → Nat → List Event × Option GatewayState
  | _, 0 => ([], none)
  | k, attempts + 1 =>
    match pollCondition W physicalGateway k with
    | (evs, some g) => (evs, some g)
    | (evs, none) =>
      ((evs ++ (pollLoop W physicalGateway (k + 1) attempts).1),
       (pollLoop W physicalGateway (k + 1) attempts).2)

/-- Lines 173-182 (and 187-196): `for _, svcPort := range svc.Spec.Ports` for the entry
`svcPortName -> lbEps` of the map of protocol `proto`, on gateway load balancer `lb`. -/
def nodePortServicePortsLoop (site : Site) (svc : Service) (proto lb physicalIP : String)
    (svcPortName : String) (lbEps : lbEndpoints) : List Event :=
  svc.Spec.Ports.enum.flatMap (fun isp =>
    if isp.2.Protocol = proto ∧ isp.2.Name = svcPortName
    then [{ site := site ++ [isp.1],
            call := Call.createLoadBalancerVIP lb physicalIP isp.2.NodePort lbEps.IPs lbEps.Port }]
    else [])

/-- Lines 170-183 (and 184-197): `for svcPortName, lbEps := range portMap`. -/
def nodePortMapLoop (site : Site) (svc : Service) (proto lb physicalIP : String)
    (visited : PortMap) : List Event :=
  visited.flatMap (fun kv => nodePortServicePortsLoop site svc proto lb physicalIP kv.1 kv.2)

/-- Lines 159-198: `for _, ep := range endpoints.Items` in namespace `a`, from the
Endpoints object of index `b` on. -/
def endpointsLoop (W : World) (g : GatewayState) (a : Nat) :
    Nat → List Endpoints → List Event × Outcome
  | _, [] => ([], Outcome.returned none)
  | b, ep :: rest =>
    let getSvc : Event := { site := [a, b], call := Call.GetService ep.Namespace ep.Name }
    match W.GetService [a, b] ep.Namespace ep.Name with
    | none => (getSvc :: (endpointsLoop W g a (b + 1) rest).1, (endpointsLoop W g a (b + 1) rest).2)
    | some svc =>
      if !W.ServiceTypeHasNodePort svc then
        (getSvc :: (endpointsLoop W g a (b + 1) rest).1, (endpointsLoop W g a (b + 1) rest).2)
      else
        match getLbEndpoints ep [] [] with
        | none => ([getSvc], Outcome.panicked)
        | some maps =>
          (getSvc ::
            (nodePortMapLoop [a, b] svc ProtocolTCP g.k8sNSLbTCP g.physicalIP
                (W.mapOrder [a, b, 0] maps.tcpPortMap) ++
             nodePortMapLoop [a, b] svc ProtocolUDP g.k8sNSLbUDP g.physicalIP
                (W.mapOrder [a, b, 1] maps.udpPortMap) ++
             (endpointsLoop W g a (b + 1) rest).1),
           (endpointsLoop W g a (b + 1) rest).2)

/-- Lines 153-199: `for _, ns := range namespaces.Items`, from the namespace of index
`a` on. -/
def namespacesLoop (W : World) (g : GatewayState) : Nat → List String → List Event × Outcome
  | _, [] => ([], Outcome.returned none)
  | a, ns :: rest =>
    let getEps : Event := { site := [a], call := Call.GetEndpoints ns }
    match W.GetEndpoints [a] ns with
    | none => (getEps :: (namespacesLoop W g (a + 1) rest).1, (namespacesLoop W g (a + 1) rest).2)
    | some items =>
      match endpointsLoop W g a 0 items with
      | (evs, Outcome.panicked) => (getEps :: evs, Outcome.panicked)
      | (evs, Outcome.returned _) =>
        (getEps :: (evs ++ (namespacesLoop W g (a + 1) rest).1),
         (namespacesLoop W g (a + 1) rest).2)

/-- The function `handleNodePortLB`: the calls it issues and how it ends. -/
def handleNodePortLB (W : World) (node : Node) : List Event × Outcome :=
  let physicalGateway := "GR_" ++ node.Name
  match pollLoop W physicalGateway 0 W.pollAttempts with
  | (evs, none) => (evs, Outcome.returned none)
  | (evs, some g) =>
    let getNs : Event := { site := [], call := Call.GetNamespaces }
    match W.GetNamespaces with
    | none => (evs ++ [getNs], Outcome.returned none)
    | some namespaces =>
      ((evs ++ getNs :: (namespacesLoop W g 0 namespaces).1),
       (namespacesLoop W g 0 namespaces).2)

/-! ## Backend tables: counts, keys, protocols -/

/-- Number of backends recorded for port name `n` in a map (0 when there is no entry). -/
def ipsLen (m : PortMap) (n : String) : Nat :=
  match mapGet m n with
  | some e => e.IPs.length
  | none => 0

/-- Number of port entries of a subset named `n` with protocol `P`. -/
def portCount (s : EndpointSubset) (P n : String) : Nat :=
  (s.Ports.filter (fun p => decide (p.Protocol = P ∧ p.Name = n))).length

/-- Sum over the subsets of (number of addresses) x (number of port entries named `n`
with protocol `P`). -/
def backendCount (ep : Endpoints) (P n : String) : Nat :=
  (ep.Subsets.map (fun s => s.Addresses.length * portCount s P n)).sum

/-- Total number of addresses of the subsets that declare a port named `n` with
protocol `P` (each such subset counted once). -/
def declaredCount (ep : Endpoints) (P n : String) : Nat :=
  ((ep.Subsets.filter (fun s => decide (0 < portCount s P n))).map
    (fun s => s.Addresses.length)).sum

/-- Indicator of a port entry named `n` with protocol `P`: 1 for such an entry, else 0. -/
def portHit (p : EndpointPort) (P n : String) : Nat :=
  if p.Protocol = P ∧ p.Name = n then 1 else 0

/-- Every port entry of the object has protocol TCP or UDP. -/
def AllTcpUdp (ep : Endpoints) : Prop :=
  ∀ s ∈ ep.Subsets, ∀ p ∈ s.Ports, p.Protocol = ProtocolTCP ∨ p.Protocol = ProtocolUDP

instance (ep : Endpoints) : Decidable (AllTcpUdp ep) := by
  unfold AllTcpUdp; infer_instance

/-- A port entry whose protocol is neither TCP nor UDP. -/
def OtherProtocol (p : EndpointPort) : Prop :=
  p.Protocol ≠ ProtocolTCP ∧ p.Protocol ≠ ProtocolUDP

instance (p : EndpointPort) : Decidable (OtherProtocol p) := by
  unfold OtherProtocol; infer_instance

/-- The Endpoints object with every port entry that is neither TCP nor UDP removed. -/
def dropOtherProtocols (ep : Endpoints) : Endpoints :=
  { Namespace := ep.Namespace, Name := ep.Name,
    Subsets := ep.Subsets.map (fun s =>
      { Addresses := s.Addresses,
        Ports := s.Ports.filter
          (fun p => decide (p.Protocol = ProtocolTCP ∨ p.Protocol = ProtocolUDP)) }) }

/-- No entry of the map has an empty backend list. -/
def NonEmptyIPs (m : PortMap) : Prop :=
  ∀ kv ∈ m, kv.2.IPs ≠ []

instance (m : PortMap) : Decidable (NonEmptyIPs m) := by
  unfold NonEmptyIPs; infer_instance

/-- The keys of a map are pairwise distinct. -/
def KeysNodup (m : PortMap) : Prop :=
  (m.map Prod.fst).Nodup

instance (m : PortMap) : Decidable (KeysNodup m) := by
  unfold KeysNodup; infer_instance

/-- The entry of the backend table for protocol `P` and port name `n`, if any. -/
def tableEntry (maps : PortMaps) (P n : String) : Option lbEndpoints :=
  if P = ProtocolTCP then mapGet maps.tcpPortMap n
  else if P = ProtocolUDP then mapGet maps.udpPortMap n
  else none

/-! ## Classification of calls -/

/-- Calls that change a load balancer: VIP creations and the `ovn-nbctl` removal. -/
def Call.isMutation : Call → Bool
  | Call.createGatewaysVIP _ _ _ _ => true
  | Call.createLoadBalancerVIP _ _ _ _ _ => true
  | Call.RunOVNNbctl _ => true
  | _ => false

/-- Calls to the load-balancer client: the mutations and the load-balancer lookups. -/
def Call.isLoadBalancerOp : Call → Bool
  | Call.GetService _ _ => false
  | Call.GetNamespaces => false
  | Call.GetEndpoints _ => false
  | _ => true

/-- The three readiness probes of the gateway poll. -/
def Call.isProbe : Call → Bool
  | Call.getGatewayLoadBalancer _ _ => true
  | Call.getGatewayPhysicalIP _ => true
  | _ => false

/-- The event was issued on behalf of the declared service port of index `q` (in
`AddEndpoints`, the first component of the label of every call made inside the loop
over `svc.Spec.Ports`). -/
def onPort (q : Nat) (e : Event) : Bool :=
  decide (e.site.head? = some q)

/-- A cluster-IP VIP creation: a `createLoadBalancerVIP` issued at lines 84 or 115, that
is, by the loop over the declared service ports itself (label `[i]`). -/
def isClusterVIPCreation (e : Event) : Bool :=
  match e.site, e.call with
  | [_], Call.createLoadBalancerVIP _ _ _ _ _ => true
  | _, _ => false

/-- An external-IP VIP creation: a `createLoadBalancerVIP` issued at line 213, by
`handleExternalIPs` (label `[i, j]`). -/
def isExternalVIPCreation (e : Event) : Bool :=
  match e.site, e.call with
  | [_, _], Call.createLoadBalancerVIP _ _ _ _ _ => true
  | _, _ => false

/-! ## The calls that are due -/

/-- One cluster-IP VIP creation for each pair of an entry `n -> (ips, targetPort)` of
`table` and a declared service port with protocol `proto` and name `n`; `lbOf i proto`
is the load balancer that the lookup made for the port of index `i` returns. -/
def pairedClusterVIPs (lbOf : Nat → String → String) (svc : Service) (proto : String)
    (table : PortMap) : List Event :=
  table.flatMap (fun kv =>
    (svc.Spec.Ports.enum.filter
      (fun isp => decide (isp.2.Protocol = proto ∧ isp.2.Name = kv.1))).map
      (fun isp =>
        { site := [isp.1],
          call := Call.createLoadBalancerVIP (lbOf isp.1 proto) svc.Spec.ClusterIP isp.2.Port
            kv.2.IPs kv.2.Port }))

/-- One external-IP VIP creation for each external IP of the service whose
default-gateway lookup (made for the declared port of index `i`) is not empty. -/
def externalVIPs (W : World) (svc : Service) (i : Nat) (svcPort : ServicePort)
    (ips : List String) (targetPort : Int) : List Event :=
  svc.Spec.ExternalIPs.enum.flatMap (fun je =>
    if W.getDefaultGatewayLoadBalancer [i, je.1] svcPort.Protocol = "" then []
    else [{ site := [i, je.1],
            call := Call.createLoadBalancerVIP
              (W.getDefaultGatewayLoadBalancer [i, je.1] svcPort.Protocol) je.2 svcPort.Port
              ips targetPort }])

/-- One `createLoadBalancerVIP(lb, physicalIP, svcPort.NodePort, ips, targetPort)` for
each pair of an entry `n -> (ips, targetPort)` of `table` and a declared service port
with protocol `proto` and name `n`. -/
def pairedNodePortVIPs (site : Site) (svc : Service) (proto lb physicalIP : String)
    (table : PortMap) : List Event :=
  table.flatMap (fun kv =>
    (svc.Spec.Ports.enum.filter
      (fun isp => decide (isp.2.Protocol = proto ∧ isp.2.Name = kv.1))).map
      (fun isp =>
        { site := site ++ [isp.1],
          call := Call.createLoadBalancerVIP lb physicalIP isp.2.NodePort kv.2.IPs kv.2.Port }))

/-- The VIP creations due for the Endpoints object of index `b` of namespace `a`: none
when its service is missing or not of NodePort type, else one per pair of a
backend-table entry and a matching declared port, on the gateway load balancer of the
entry's protocol. -/
def endpointsBackfill (W : World) (g : GatewayState) (a b : Nat) (ep : Endpoints) : List Event :=
  match W.GetService [a, b] ep.Namespace ep.Name with
  | none => []
  | some svc =>
    if W.ServiceTypeHasNodePort svc then
      match getLbEndpoints ep [] [] with
      | none => []
      | some maps =>
        pairedNodePortVIPs [a, b] svc ProtocolTCP g.k8sNSLbTCP g.physicalIP
            (W.mapOrder [a, b, 0] maps.tcpPortMap) ++
          pairedNodePortVIPs [a, b] svc ProtocolUDP g.k8sNSLbUDP g.physicalIP
            (W.mapOrder [a, b, 1] maps.udpPortMap)
    else []

/-- The VIP creations due for the namespace of index `a`: none when `GetEndpoints`
fails, else those of its Endpoints objects in turn. -/
def namespaceBackfill (W : World) (g : GatewayState) (a : Nat) (ns : String) : List Event :=
  match W.GetEndpoints [a] ns with
  | none => []
  | some items => items.enum.flatMap (fun bep => endpointsBackfill W g a bep.1 bep.2)

/-- The VIP creations due for a node: those of every namespace in turn. -/
def expectedBackfill (W : World) (g : GatewayState) (namespaces : List String) : List Event :=
  namespaces.enum.flatMap (fun ans => namespaceBackfill W g ans.1 ans.2)

/-- The Endpoints objects that `handleNodePortLB` runs `getLbEndpoints` on: those whose
service exists and is of NodePort type. -/
def qualifies (W : World) (a b : Nat) (ep : Endpoints) : Bool :=
  match W.GetService [a, b] ep.Namespace ep.Name with
  | some svc => W.ServiceTypeHasNodePort svc
  | none => false

/-! ## Relations between environments -/

/-- Two behaviours of the collaborators that answer alike every call that is not made
on behalf of the declared service port of index `p`: they may differ in whether the
NodePort VIP creation, the load-balancer lookup, the cluster VIP creation (and the
external-IP calls) of port `p` fail.  The orders in which the maps are visited are
unconstrained. -/
structure AgreeOffPort (p : Nat) (W1 W2 : World) : Prop where
  GetService : W1.GetService = W2.GetService
  IsClusterIPSet : W1.IsClusterIPSet = W2.IsClusterIPSet
  ServiceTypeHasNodePort : W1.ServiceTypeHasNodePort = W2.ServiceTypeHasNodePort
  ServiceTypeHasClusterIP : W1.ServiceTypeHasClusterIP = W2.ServiceTypeHasClusterIP
  NodeportEnable : W1.NodeportEnable = W2.NodeportEnable
  createGatewaysVIP : ∀ s, s.head? ≠ some p → W1.createGatewaysVIP s = W2.createGatewaysVIP s
  getLoadBalancer : ∀ s, s.head? ≠ some p → W1.getLoadBalancer s = W2.getLoadBalancer s
  createLoadBalancerVIP : ∀ s, s.head? ≠ some p →
    W1.createLoadBalancerVIP s = W2.createLoadBalancerVIP s
  getDefaultGatewayLoadBalancer : ∀ s, s.head? ≠ some p →
    W1.getDefaultGatewayLoadBalancer s = W2.getDefaultGatewayLoadBalancer s

/-- The environment `W` with the maps visited in another order. -/
def withOrder (W : World) (order : Site → PortMap → PortMap)
    (h : ∀ s m, (order s m).Perm m) : World :=
  { W with mapOrder := order, mapOrder_perm := h }

/-! ## Load-balancer state -/

/-- Key of a VIP entry: load balancer, virtual IP, virtual port. -/
abbrev VIPKey := String × String × Int

/-- Value of a VIP entry: the backend IPs and the target port. -/
abbrev Backends := List String × Int

/-- The VIP entries of all load balancers. -/
abbrev LBState := VIPKey → Option Backends

/-- The state without any VIP entry. -/
def emptyLBState : LBState := fun _ => none

/-- A successful `createLoadBalancerVIP`: the entry of the key is overwritten. -/
def upsert (st : LBState) (k : VIPKey) (v : Backends) : LBState :=
  fun k1 => if k1 = k then some v else st k1

/-- The VIP entries that a successful `createGatewaysVIP(protocol, port, targetPort,
ips)` writes.  The function is defined outside the file, so its effect is a parameter. -/
abbrev GatewayWrites := String → Int → Int → List String → List (VIPKey × Backends)

/-- The VIP entries written by a call that succeeds. -/
def eventWrites (gw : GatewayWrites) (e : Event) : List (VIPKey × Backends) :=
  match e.call with
  | Call.createLoadBalancerVIP lb vip port ips targetPort => [((lb, vip, port), (ips, targetPort))]
  | Call.createGatewaysVIP protocol port targetPort ips => gw protocol port targetPort ips
  | _ => []

/-- The VIP entries written by a trace all of whose creations succeed, in order. -/
def traceWrites (gw : GatewayWrites) (trace : List Event) : List (VIPKey × Backends) :=
  trace.flatMap (eventWrites gw)

/-- The state after a sequence of writes. -/
def applyWrites (st : LBState) (ws : List (VIPKey × Backends)) : LBState :=
  ws.foldl (fun s w => upsert s w.1 w.2) st

/-- The load-balancer state after a trace all of whose creations succeed. -/
def finalState (gw : GatewayWrites) (st : LBState) (trace : List Event) : LBState :=
  applyWrites st (traceWrites gw trace)

/-- No two writes bind the same key to different backends. -/
def ConsistentWrites (ws : List (VIPKey × Backends)) : Prop :=
  ∀ x ∈ ws, ∀ y ∈ ws, x.1 = y.1 → x.2 = y.2

instance (ws : List (VIPKey × Backends)) : Decidable (ConsistentWrites ws) := by
  unfold ConsistentWrites; infer_instance

/-! ## Concrete inputs -/

/-- An environment in which every call succeeds, maps are visited in insertion order,
and `GetService` finds `svc`. -/
def sampleWorld (svc : Service) : World where
  GetService := fun _ _ _ => some svc
  GetNamespaces := some ["default"]
  GetEndpoints := fun _ _ => some []
  IsClusterIPSet := fun s => decide (s.Spec.ClusterIP ≠ "" ∧ s.Spec.ClusterIP ≠ "None")
  ServiceTypeHasNodePort := fun s => decide (s.Spec.ServiceType = "NodePort")
  ServiceTypeHasClusterIP := fun s =>
    decide (s.Spec.ServiceType = "ClusterIP" ∨ s.Spec.ServiceType = "NodePort")
  NodeportEnable := false
  createGatewaysVIP := fun _ _ _ _ _ => true
  getLoadBalancer := fun _ p => some ("lb-" ++ p)
  createLoadBalancerVIP := fun _ _ _ _ _ _ => true
  getDefaultGatewayLoadBalancer := fun _ p => "gw-" ++ p
  getGatewayLoadBalancer := fun _ g p => g ++ "-" ++ p
  getGatewayPhysicalIP := fun _ _ => "192.168.0.1"
  RunOVNNbctl := fun _ _ => true
  pollAttempts := 3
  mapOrder := fun _ m => m
  mapOrder_perm := fun _ m => List.Perm.refl m

/-- The Endpoints object of the scenario: two addresses, one port web/8080/TCP. -/
def scenarioEp : Endpoints :=
  { Namespace := "default", Name := "web",
    Subsets := [{ Addresses := [{ IP := "10.0.0.1" }, { IP := "10.0.0.2" }],
                  Ports := [{ Name := "web", Port := 8080, Protocol := "TCP" }] }] }

/-- The Service of the scenario: cluster IP 10.96.0.5, one port web/80/TCP. -/
def scenarioSvc : Service :=
  { Name := "web",
    Spec := { Ports := [{ Name := "web", Protocol := "TCP", Port := 80, NodePort := 0 }],
              ClusterIP := "10.96.0.5", ExternalIPs := [], ServiceType := "ClusterIP" } }

/-- An Endpoints object with one address and one SCTP port entry. -/
def sctpEp : Endpoints :=
  { Namespace := "default", Name := "web",
    Subsets := [{ Addresses := [{ IP := "10.0.0.1" }],
                  Ports := [{ Name := "web", Port := 8080, Protocol := "SCTP" }] }] }

/-- An Endpoints object whose only subset lists the port name web twice under TCP. -/
def dupPortEp : Endpoints :=
  { Namespace := "default", Name := "web",
    Subsets := [{ Addresses := [{ IP := "10.0.0.1" }],
                  Ports := [{ Name := "web", Port := 8080, Protocol := "TCP" },
                            { Name := "web", Port := 8081, Protocol := "TCP" }] }] }

/-- An environment in which the gateway never reports a physical IP. -/
def timeoutWorld : World :=
  { sampleWorld scenarioSvc with getGatewayPhysicalIP := fun _ _ => "" }

/-- The scenario's Service with two external IPs. -/
def externalSvc : Service :=
  { scenarioSvc with
    Spec := { scenarioSvc.Spec with ExternalIPs := ["192.0.2.1", "192.0.2.2"] } }

/-- An environment for `externalSvc` with NodePort programming disabled in which the
default-gateway lookup made for the first external IP finds nothing. -/
def externalWorld : World :=
  { sampleWorld externalSvc with
    getDefaultGatewayLoadBalancer := fun s p => if s = [0, 0] then "" else "gw-" ++ p }

/-- A Service with two declared TCP ports, web and metrics. -/
def twoPortSvc : Service :=
  { Name := "web",
    Spec := { Ports := [{ Name := "web", Protocol := "TCP", Port := 80, NodePort := 30080 },
                        { Name := "metrics", Protocol := "TCP", Port := 9100, NodePort := 30091 }],
              ClusterIP := "10.96.0.5", ExternalIPs := ["192.0.2.1"],
              ServiceType := "ClusterIP" } }

/-- An Endpoints object backing both ports of `twoPortSvc`. -/
def twoPortEp : Endpoints :=
  { Namespace := "default", Name := "web",
    Subsets := [{ Addresses := [{ IP := "10.0.0.1" }],
                  Ports := [{ Name := "web", Port := 8080, Protocol := "TCP" },
                            { Name := "metrics", Port := 9090, Protocol := "TCP" }] }] }

/-- The environment `sampleWorld twoPortSvc` in which the cluster VIP creation of the
declared port of index 0 fails. -/
def failingWorld : World :=
  { sampleWorld twoPortSvc with
    createLoadBalancerVIP := fun s _ _ _ _ _ => decide (s ≠ [0]) }

/-- A Service whose two declared TCP ports, named a and b, share the port number 80. -/
def clashSvc : Service :=
  { Name := "web",
    Spec := { Ports := [{ Name := "a", Protocol := "TCP", Port := 80, NodePort := 0 },
                        { Name := "b", Protocol := "TCP", Port := 80, NodePort := 0 }],
              ClusterIP := "10.96.0.5", ExternalIPs := [], ServiceType := "ClusterIP" } }

/-- An Endpoints object backing a on target port 8080 and b on target port 9090. -/
def clashEp : Endpoints :=
  { Namespace := "default", Name := "web",
    Subsets := [{ Addresses := [{ IP := "10.0.0.1" }],
                  Ports := [{ Name := "a", Port := 8080, Protocol := "TCP" },
                            { Name := "b", Port := 9090, Protocol := "TCP" }] }] }

/-- The visiting order that reverses the insertion order. -/
def reverseOrder : Site → PortMap → PortMap := fun _ m => m.reverse

/-- The scenario's Service with type NodePort and node port 30080. -/
def nodePortSvc : Service :=
  { Name := "web",
    Spec := { Ports := [{ Name := "web", Protocol := "TCP", Port := 80, NodePort := 30080 }],
              ClusterIP := "10.96.0.5", ExternalIPs := [], ServiceType := "NodePort" } }

/-- A NodePort Service named sctp with one SCTP port. -/
def sctpSvc : Service :=
  { Name := "sctp",
    Spec := { Ports := [{ Name := "sctp", Protocol := "SCTP", Port := 9000, NodePort := 30900 }],
              ClusterIP := "10.96.0.9", ExternalIPs := [], ServiceType := "NodePort" } }

/-- The Endpoints object of `sctpSvc`: one address, one SCTP port entry. -/
def sctpSvcEp : Endpoints :=
  { Namespace := "default", Name := "sctp",
    Subsets := [{ Addresses := [{ IP := "10.0.0.9" }],
                  Ports := [{ Name := "sctp", Port := 9000, Protocol := "SCTP" }] }] }

/-- An environment whose single namespace holds the Endpoints object of the SCTP service
followed by the scenario's Endpoints object, each owned by a NodePort service; the
gateway is ready at the first poll iteration. -/
def sctpBackfillWorld : World :=
  { sampleWorld nodePortSvc with
    GetService := fun _ _ name => if name = "sctp" then some sctpSvc else some nodePortSvc
    GetEndpoints := fun _ _ => some [sctpSvcEp, scenarioEp] }

/-- The same environment without the SCTP Endpoints object. -/
def backfillWorld : World :=
  { sampleWorld nodePortSvc with GetEndpoints := fun _ _ => some [scenarioEp] }

/-- The gateway state observed by the poll in `sctpBackfillWorld` for node `node1`. -/
def node1Gateway : GatewayState :=
  { k8sNSLbTCP := "GR_node1-TCP", k8sNSLbUDP := "GR_node1-UDP", physicalIP := "192.168.0.1" }

/-! ## Theorems -/

theorem mapGet_mapSet (m : PortMap) (k : String) (v : lbEndpoints) (n : String) :
    mapGet (mapSet m k v) n = if k = n then some v else mapGet m n := by
  induction m with
  | nil => simp [mapSet, mapGet]
  | cons hd tl ih =>
    obtain ⟨k1, v1⟩ := hd
    by_cases h1 : k1 = k
    · subst h1
      by_cases h2 : k1 = n <;> simp [mapSet, mapGet, h2]
    · by_cases h2 : k1 = n
      · subst h2
        simp [mapSet, mapGet, h1, Ne.symm h1]
      · simp [mapSet, mapGet, h1, h2, ih]

theorem ipsLen_mapSet (m : PortMap) (k : String) (v : lbEndpoints) (n : String) :
    ipsLen (mapSet m k v) n = if k = n then v.IPs.length else ipsLen m n := by
  unfold ipsLen
  rw [mapGet_mapSet]
  by_cases h : k = n <;> simp [h]

theorem mem_mapSet (m : PortMap) (k : String) (v : lbEndpoints) (x : String × lbEndpoints)
    (h : x ∈ mapSet m k v) : x = (k, v) ∨ x ∈ m := by
  induction m with
  | nil =>
    simp only [mapSet, List.mem_singleton] at h
    exact Or.inl h
  | cons hd tl ih =>
    obtain ⟨k1, v1⟩ := hd
    by_cases h1 : k1 = k
    · simp only [mapSet, h1, if_true, List.mem_cons] at h
      rcases h with h | h
      · exact Or.inl h
      · exact Or.inr (List.mem_cons_of_mem _ h)
    · simp only [mapSet, h1, if_false, List.mem_cons] at h
      rcases h with h | h
      · exact Or.inr (by rw [h]; exact List.mem_cons_self _ _)
      · rcases ih h with h2 | h2
        · exact Or.inl h2
        · exact Or.inr (List.mem_cons_of_mem _ h2)

theorem mem_of_mapGet (m : PortMap) (n : String) (e : lbEndpoints)
    (h : mapGet m n = some e) : (n, e) ∈ m := by
  induction m with
  | nil => simp [mapGet] at h
  | cons hd tl ih =>
    obtain ⟨k1, v1⟩ := hd
    by_cases h1 : k1 = n
    · simp only [mapGet, h1, if_true, Option.some.injEq] at h
      rw [h1, h]
      exact List.mem_cons_self _ _
    · simp only [mapGet, h1, if_false] at h
      exact List.mem_cons_of_mem _ (ih h)

theorem NonEmptyIPs_mapSet (m : PortMap) (k : String) (v : lbEndpoints)
    (hm : NonEmptyIPs m) (hv : v.IPs ≠ []) : NonEmptyIPs (mapSet m k v) := by
  intro x hx
  rcases mem_mapSet m k v x hx with h | h
  · rw [h]
    exact hv
  · exact hm x h

theorem tcp_ne_udp : ProtocolTCP ≠ ProtocolUDP := by decide

theorem lbEndpointsBody_spec (ip : EndpointAddress) (port : EndpointPort) (maps : PortMaps)
    (hp : port.Protocol = ProtocolTCP ∨ port.Protocol = ProtocolUDP)
    (h1 : NonEmptyIPs maps.tcpPortMap) (h2 : NonEmptyIPs maps.udpPortMap) :
    ∃ maps1, lbEndpointsBody ip port maps = some maps1 ∧
      NonEmptyIPs maps1.tcpPortMap ∧ NonEmptyIPs maps1.udpPortMap ∧
      (∀ n, ipsLen maps1.tcpPortMap n = ipsLen maps.tcpPortMap n + portHit port ProtocolTCP n) ∧
      (∀ n, ipsLen maps1.udpPortMap n = ipsLen maps.udpPortMap n + portHit port ProtocolUDP n) := by
  rcases hp with hp | hp
  · have hsel : selectMap port = MapRef.tcpPortMap := by
      simp [selectMap, hp, tcp_ne_udp]
    simp only [lbEndpointsBody, hsel, readMap, writeMap]
    refine ⟨_, rfl, ?_, h2, ?_, ?_⟩
    · exact NonEmptyIPs_mapSet _ _ _ h1 (by simp)
    · intro n
      simp only [ipsLen_mapSet, portHit, hp, true_and]
      by_cases hn : port.Name = n
      · subst hn
        cases hg : mapGet maps.tcpPortMap port.Name <;> simp [ipsLen, hg]
      · simp [hn]
    · intro n
      simp [portHit, hp, tcp_ne_udp]
  · have hsel : selectMap port = MapRef.udpPortMap := by
      simp [selectMap, hp]
    simp only [lbEndpointsBody, hsel, readMap, writeMap]
    refine ⟨_, rfl, h1, ?_, ?_, ?_⟩
    · exact NonEmptyIPs_mapSet _ _ _ h2 (by simp)
    · intro n
      simp [portHit, hp, Ne.symm tcp_ne_udp]
    · intro n
      simp only [ipsLen_mapSet, portHit, hp, true_and]
      by_cases hn : port.Name = n
      · subst hn
        cases hg : mapGet maps.udpPortMap port.Name <;> simp [ipsLen, hg]
      · simp [hn]

theorem filter_hit_length (ports : List EndpointPort) (P n : String) :
    (ports.filter (fun p => decide (p.Protocol = P ∧ p.Name = n))).length =
      (ports.map (fun p => portHit p P n)).sum := by
  induction ports with
  | nil => rfl
  | cons p ps ih =>
    rw [List.filter_cons, List.map_cons, List.sum_cons, ← ih]
    by_cases h : p.Protocol = P ∧ p.Name = n
    · rw [if_pos (by simpa using h)]
      simp only [portHit, if_pos h, List.length_cons]; omega
    · rw [if_neg (by simpa using h)]
      simp only [portHit, if_neg h]; omega

theorem portsLoop_spec (ip : EndpointAddress) (ports : List EndpointPort) :
    ∀ (maps : PortMaps),
    (∀ p ∈ ports, p.Protocol = ProtocolTCP ∨ p.Protocol = ProtocolUDP) →
    NonEmptyIPs maps.tcpPortMap → NonEmptyIPs maps.udpPortMap →
    ∃ maps1, portsLoop ip ports maps = some maps1 ∧
      NonEmptyIPs maps1.tcpPortMap ∧ NonEmptyIPs maps1.udpPortMap ∧
      (∀ n, ipsLen maps1.tcpPortMap n = ipsLen maps.tcpPortMap n +
        (ports.filter (fun p => decide (p.Protocol = ProtocolTCP ∧ p.Name = n))).length) ∧
      (∀ n, ipsLen maps1.udpPortMap n = ipsLen maps.udpPortMap n +
        (ports.filter (fun p => decide (p.Protocol = ProtocolUDP ∧ p.Name = n))).length) := by
  induction ports with
  | nil => intro maps _ h1 h2; exact ⟨maps, rfl, h1, h2, by simp, by simp⟩
  | cons p ps ih =>
    intro maps hp h1 h2
    obtain ⟨m1, e1, a1, b1, c1, d1⟩ :=
      lbEndpointsBody_spec ip p maps (hp p (List.mem_cons_self _ _)) h1 h2
    obtain ⟨m2, e2, a2, b2, c2, d2⟩ :=
      ih m1 (fun q hq => hp q (List.mem_cons_of_mem _ hq)) a1 b1
    refine ⟨m2, by simp only [portsLoop, e1, e2], a2, b2, ?_, ?_⟩
    · intro n
      rw [c2, c1, filter_hit_length, filter_hit_length]
      simp only [List.map_cons, List.sum_cons]; omega
    · intro n
      rw [d2, d1, filter_hit_length, filter_hit_length]
      simp only [List.map_cons, List.sum_cons]; omega

theorem addressesLoop_spec (ports : List EndpointPort)
    (hp : ∀ p ∈ ports, p.Protocol = ProtocolTCP ∨ p.Protocol = ProtocolUDP)
    (addrs : List EndpointAddress) :
    ∀ (maps : PortMaps),
    NonEmptyIPs maps.tcpPortMap → NonEmptyIPs maps.udpPortMap →
    ∃ maps1, addressesLoop ports addrs maps = some maps1 ∧
      NonEmptyIPs maps1.tcpPortMap ∧ NonEmptyIPs maps1.udpPortMap ∧
      (∀ n, ipsLen maps1.tcpPortMap n = ipsLen maps.tcpPortMap n + addrs.length *
        (ports.filter (fun p => decide (p.Protocol = ProtocolTCP ∧ p.Name = n))).length) ∧
      (∀ n, ipsLen maps1.udpPortMap n = ipsLen maps.udpPortMap n + addrs.length *
        (ports.filter (fun p => decide (p.Protocol = ProtocolUDP ∧ p.Name = n))).length) := by
  induction addrs with
  | nil => intro maps h1 h2; exact ⟨maps, rfl, h1, h2, by simp, by simp⟩
  | cons ip rest ih =>
    intro maps h1 h2
    obtain ⟨m1, e1, a1, b1, c1, d1⟩ := portsLoop_spec ip ports maps hp h1 h2
    obtain ⟨m2, e2, a2, b2, c2, d2⟩ := ih m1 a1 b1
    refine ⟨m2, by simp only [addressesLoop, e1, e2], a2, b2, ?_, ?_⟩
    · intro n
      rw [c2, c1, List.length_cons, Nat.add_mul]; omega
    · intro n
      rw [d2, d1, List.length_cons, Nat.add_mul]; omega

theorem subsetsLoop_spec (subsets : List EndpointSubset) :
    ∀ (maps : PortMaps),
    (∀ s ∈ subsets, ∀ p ∈ s.Ports, p.Protocol = ProtocolTCP ∨ p.Protocol = ProtocolUDP) →
    NonEmptyIPs maps.tcpPortMap → NonEmptyIPs maps.udpPortMap →
    ∃ maps1, subsetsLoop subsets maps = some maps1 ∧
      NonEmptyIPs maps1.tcpPortMap ∧ NonEmptyIPs maps1.udpPortMap ∧
      (∀ n, ipsLen maps1.tcpPortMap n = ipsLen maps.tcpPortMap n +
        (subsets.map (fun s => s.Addresses.length * portCount s ProtocolTCP n)).sum) ∧
      (∀ n, ipsLen maps1.udpPortMap n = ipsLen maps.udpPortMap n +
        (subsets.map (fun s => s.Addresses.length * portCount s ProtocolUDP n)).sum) := by
  induction subsets with
  | nil => intro maps _ h1 h2; exact ⟨maps, rfl, h1, h2, by simp, by simp⟩
  | cons s rest ih =>
    intro maps hp h1 h2
    obtain ⟨m1, e1, a1, b1, c1, d1⟩ :=
      addressesLoop_spec s.Ports (hp s (List.mem_cons_self _ _)) s.Addresses maps h1 h2
    obtain ⟨m2, e2, a2, b2, c2, d2⟩ :=
      ih m1 (fun q hq => hp q (List.mem_cons_of_mem _ hq)) a1 b1
    refine ⟨m2, by simp only [subsetsLoop, e1, e2], a2, b2, ?_, ?_⟩
    · intro n
      rw [c2, c1]; simp only [List.map_cons, List.sum_cons, portCount]; omega
    · intro n
      rw [d2, d1]; simp only [List.map_cons, List.sum_cons, portCount]; omega

theorem mapGet_length_of_ipsLen (m : PortMap) (hm : NonEmptyIPs m) (n : String) (c : Nat)
    (h : ipsLen m n = c) :
    (mapGet m n).map (fun e => e.IPs.length) = if c = 0 then none else some c := by
  unfold ipsLen at h
  cases hg : mapGet m n with
  | none => simp [hg] at h; simp [← h]
  | some e =>
    simp [hg] at h
    have := hm (n, e) (mem_of_mapGet m n e hg)
    have hc : c ≠ 0 := by
      rw [← h]; intro h0; exact this (List.length_eq_zero.mp h0)
    simp [hc, h]

theorem backendCount_eq_declaredCount (ep : Endpoints) (P n : String)
    (h : ∀ s ∈ ep.Subsets, portCount s P n ≤ 1) :
    backendCount ep P n = declaredCount ep P n := by
  unfold backendCount declaredCount
  generalize ep.Subsets = l at h
  induction l with
  | nil => rfl
  | cons s rest ih =>
    have hs := h s (List.mem_cons_self _ _)
    have ih1 := ih (fun q hq => h q (List.mem_cons_of_mem _ hq))
    by_cases h0 : portCount s P n = 0
    · simp [List.filter_cons, h0, ih1]
    · have h1 : portCount s P n = 1 := by omega
      simp [List.filter_cons, h1, ih1]

theorem scenario_table :
    getLbEndpoints scenarioEp [] [] =
      some { tcpPortMap := [("web", { IPs := ["10.0.0.1", "10.0.0.2"], Port := 8080 })],
             udpPortMap := [] } := by
  decide

/-! ### getLbEndpoints: backend counts (C2) and the nil-map fault (C3) -/

/-- C2 (as stated) fails: the object `dupPortEp` has only TCP port entries, its single
subset has one address and declares the name web under TCP, so the stated length is 1,
but the code appends the address once per port entry and records two backends. -/
theorem getLbEndpoints_declaredCount_counterexample :
    AllTcpUdp dupPortEp ∧
    getLbEndpoints dupPortEp [] [] =
      some { tcpPortMap := [("web", { IPs := ["10.0.0.1", "10.0.0.1"], Port := 8081 })],
             udpPortMap := [] } ∧
    declaredCount dupPortEp ProtocolTCP "web" = 1 := by
  decide

/-- C2 (amended): for an Endpoints object whose port entries are all TCP or UDP,
`getLbEndpoints` on two empty maps returns, and for each protocol and port name `n` the
entry of `n` has as many backends as the sum over the subsets of (number of addresses)
x (number of port entries named `n` with that protocol), with no entry when the sum is
zero; the sum is the total number of addresses of the declaring subsets whenever no
subset lists the same name and protocol twice. -/
theorem getLbEndpoints_backend_count (ep : Endpoints) (h : AllTcpUdp ep) :
    ∃ maps, getLbEndpoints ep [] [] = some maps ∧
      (∀ n, (mapGet maps.tcpPortMap n).map (fun e => e.IPs.length) =
        if backendCount ep ProtocolTCP n = 0 then none
        else some (backendCount ep ProtocolTCP n)) ∧
      (∀ n, (mapGet maps.udpPortMap n).map (fun e => e.IPs.length) =
        if backendCount ep ProtocolUDP n = 0 then none
        else some (backendCount ep ProtocolUDP n)) ∧
      (∀ P n, (∀ s ∈ ep.Subsets, portCount s P n ≤ 1) →
        backendCount ep P n = declaredCount ep P n) := by
  have hnil : NonEmptyIPs [] := by intro kv hkv; simp at hkv
  obtain ⟨maps, e, a, b, c, d⟩ :=
    subsetsLoop_spec ep.Subsets { tcpPortMap := [], udpPortMap := [] } h hnil hnil
  refine ⟨maps, e, ?_, ?_, fun P n hs => backendCount_eq_declaredCount ep P n hs⟩
  · intro n
    apply mapGet_length_of_ipsLen _ a
    rw [c n]; simp [ipsLen, mapGet, backendCount]
  · intro n
    apply mapGet_length_of_ipsLen _ b
    rw [d n]; simp [ipsLen, mapGet, backendCount]

/-- Witness of C2 (amended) on the scenario's Endpoints object. -/
theorem getLbEndpoints_backend_count_witness :
    AllTcpUdp scenarioEp ∧
    ∃ maps, getLbEndpoints scenarioEp [] [] = some maps ∧
      (∀ n, (mapGet maps.tcpPortMap n).map (fun e => e.IPs.length) =
        if backendCount scenarioEp ProtocolTCP n = 0 then none
        else some (backendCount scenarioEp ProtocolTCP n)) ∧
      (∀ n, (mapGet maps.udpPortMap n).map (fun e => e.IPs.length) =
        if backendCount scenarioEp ProtocolUDP n = 0 then none
        else some (backendCount scenarioEp ProtocolUDP n)) ∧
      (∀ P n, (∀ s ∈ scenarioEp.Subsets, portCount s P n ≤ 1) →
        backendCount scenarioEp P n = declaredCount scenarioEp P n) :=
  ⟨by decide, getLbEndpoints_backend_count scenarioEp (by decide)⟩

/-- C3 (code defect): on an Endpoints object with one address and one SCTP port entry
`getLbEndpoints` faults (it writes to the nil map), whereas on the same object with that
port entry removed it returns the two empty maps. -/
theorem getLbEndpoints_sctp_faults :
    getLbEndpoints sctpEp [] [] = none ∧
    getLbEndpoints (dropOtherProtocols sctpEp) [] [] =
      some { tcpPortMap := [], udpPortMap := [] } := by
  decide

/-! ### getLbEndpoints: when it faults -/

theorem lbEndpointsBody_none_iff (ip : EndpointAddress) (port : EndpointPort) (maps : PortMaps) :
    lbEndpointsBody ip port maps = none ↔ OtherProtocol port := by
  unfold lbEndpointsBody OtherProtocol selectMap
  by_cases h1 : port.Protocol = ProtocolUDP
  · simp [h1, writeMap, Ne.symm tcp_ne_udp]
  · by_cases h2 : port.Protocol = ProtocolTCP
    · simp [h2, writeMap, tcp_ne_udp]
    · simp [h1, h2, writeMap]

theorem portsLoop_none_iff (ip : EndpointAddress) (ports : List EndpointPort) :
    ∀ maps, portsLoop ip ports maps = none ↔ ∃ p ∈ ports, OtherProtocol p := by
  induction ports with
  | nil => intro maps; simp [portsLoop]
  | cons p ps ih =>
    intro maps
    cases hb : lbEndpointsBody ip p maps with
    | none =>
      have := (lbEndpointsBody_none_iff ip p maps).mp hb
      simp only [portsLoop, hb, true_iff]
      exact ⟨p, List.mem_cons_self _ _, this⟩
    | some m =>
      have hp : ¬ OtherProtocol p := by
        intro h
        rw [(lbEndpointsBody_none_iff ip p maps).mpr h] at hb
        cases hb
      simp only [portsLoop, hb, ih m, List.mem_cons, exists_eq_or_imp, hp, false_or]

theorem addressesLoop_none_iff (ports : List EndpointPort) (addrs : List EndpointAddress) :
    ∀ maps, addressesLoop ports addrs maps = none ↔
      addrs ≠ [] ∧ ∃ p ∈ ports, OtherProtocol p := by
  induction addrs with
  | nil => intro maps; simp [addressesLoop]
  | cons ip rest ih =>
    intro maps
    cases hb : portsLoop ip ports maps with
    | none =>
      have := (portsLoop_none_iff ip ports maps).mp hb
      simp only [addressesLoop, hb, true_iff]
      exact ⟨by simp, this⟩
    | some m =>
      have hp : ¬ ∃ p ∈ ports, OtherProtocol p := by
        intro h
        rw [(portsLoop_none_iff ip ports maps).mpr h] at hb
        cases hb
      simp only [addressesLoop, hb, ih m, hp, and_false]

theorem subsetsLoop_none_iff (subsets : List EndpointSubset) :
    ∀ maps, subsetsLoop subsets maps = none ↔
      ∃ s ∈ subsets, s.Addresses ≠ [] ∧ ∃ p ∈ s.Ports, OtherProtocol p := by
  induction subsets with
  | nil => intro maps; simp [subsetsLoop]
  | cons s rest ih =>
    intro maps
    cases hb : addressesLoop s.Ports s.Addresses maps with
    | none =>
      have := (addressesLoop_none_iff s.Ports s.Addresses maps).mp hb
      simp only [subsetsLoop, hb, true_iff]
      exact ⟨s, List.mem_cons_self _ _, this⟩
    | some m =>
      have hp : ¬ (s.Addresses ≠ [] ∧ ∃ p ∈ s.Ports, OtherProtocol p) := by
        intro h
        rw [(addressesLoop_none_iff s.Ports s.Addresses maps).mpr h] at hb
        cases hb
      simp only [subsetsLoop, hb, ih m, List.mem_cons, exists_eq_or_imp, hp, false_or]

/-- Supporting fact for C3: `getLbEndpoints` faults exactly when some subset has at
least one address and a port entry whose protocol is neither TCP nor UDP. -/
theorem getLbEndpoints_faults_iff (ep : Endpoints) (tcpPortMap udpPortMap : PortMap) :
    getLbEndpoints ep tcpPortMap udpPortMap = none ↔
      ∃ s ∈ ep.Subsets, s.Addresses ≠ [] ∧ ∃ p ∈ s.Ports, OtherProtocol p :=
  subsetsLoop_none_iff ep.Subsets _

theorem addressesLoop_filtered (ports : List EndpointPort) (addrs : List EndpointAddress)
    (maps m : PortMaps) (h : addressesLoop ports addrs maps = some m) :
    addressesLoop
      (ports.filter (fun p => decide (p.Protocol = ProtocolTCP ∨ p.Protocol = ProtocolUDP)))
      addrs maps = some m := by
  cases addrs with
  | nil => simpa [addressesLoop] using h
  | cons ip rest =>
    have hn : ¬ ∃ p ∈ ports, OtherProtocol p := by
      intro hex
      have := (addressesLoop_none_iff ports (ip :: rest) maps).mpr ⟨by simp, hex⟩
      rw [this] at h
      cases h
    have hf : ports.filter
        (fun p => decide (p.Protocol = ProtocolTCP ∨ p.Protocol = ProtocolUDP)) = ports := by
      rw [List.filter_eq_self]
      intro p hp
      by_contra hc
      apply hn
      refine ⟨p, hp, ?_⟩
      unfold OtherProtocol
      simp only [decide_eq_true_eq, not_or] at hc
      exact hc
    rw [hf]
    exact h

theorem subsetsLoop_filtered (subsets : List EndpointSubset) :
    ∀ maps m, subsetsLoop subsets maps = some m →
      subsetsLoop (subsets.map (fun s =>
        { Addresses := s.Addresses,
          Ports := s.Ports.filter
            (fun p => decide (p.Protocol = ProtocolTCP ∨ p.Protocol = ProtocolUDP)) }))
        maps = some m := by
  induction subsets with
  | nil => intro maps m h; simpa [subsetsLoop] using h
  | cons s rest ih =>
    intro maps m h
    cases hb : addressesLoop s.Ports s.Addresses maps with
    | none => simp [subsetsLoop, hb] at h
    | some m1 =>
      simp only [subsetsLoop, hb] at h
      simp only [List.map_cons, subsetsLoop, addressesLoop_filtered _ _ _ _ hb]
      exact ih m1 m h

/-- Supporting fact for C3: whenever `getLbEndpoints` does not fault, it fills the maps
as it does on the object with the port entries that are neither TCP nor UDP removed. -/
theorem getLbEndpoints_eq_filtered (ep : Endpoints) (tcpPortMap udpPortMap : PortMap)
    (maps : PortMaps) (h : getLbEndpoints ep tcpPortMap udpPortMap = some maps) :
    getLbEndpoints (dropOtherProtocols ep) tcpPortMap udpPortMap = some maps :=
  subsetsLoop_filtered ep.Subsets _ maps h

/-- Witness of the supporting fact on the scenario's Endpoints object. -/
theorem getLbEndpoints_eq_filtered_witness :
    getLbEndpoints (dropOtherProtocols scenarioEp) [] [] =
      some { tcpPortMap := [("web", { IPs := ["10.0.0.1", "10.0.0.2"], Port := 8080 })],
             udpPortMap := [] } :=
  getLbEndpoints_eq_filtered scenarioEp [] [] _ scenario_table

/-! ### AddEndpoints without a usable service (C4) -/

/-- C4: when `GetService` fails, or the service found has no cluster IP set,
`AddEndpoints` returns nil and its only call is the `GetService` lookup itself: no
load-balancer lookup, VIP creation or VIP removal is issued, whatever the subsets, the
service type, the external IPs and the NodePort switch are. -/
theorem AddEndpoints_without_service_is_noop (W : World) (ep : Endpoints)
    (h : W.GetService [] ep.Namespace ep.Name = none ∨
      ∃ svc, W.GetService [] ep.Namespace ep.Name = some svc ∧ W.IsClusterIPSet svc = false) :
    AddEndpoints W ep =
      ([{ site := [], call := Call.GetService ep.Namespace ep.Name }], Outcome.returned none) ∧
    (AddEndpoints W ep).1.filter (fun e => e.call.isLoadBalancerOp) = [] := by
  have key : AddEndpoints W ep =
      ([{ site := [], call := Call.GetService ep.Namespace ep.Name }], Outcome.returned none) := by
    rcases h with h | ⟨svc, h, hip⟩
    · simp only [AddEndpoints, h]
    · simp only [AddEndpoints, h, hip]
      rfl
  refine ⟨key, ?_⟩
  rw [key]
  rfl

/-- Witness of C4: the scenario's Endpoints object when the service has no cluster IP. -/
theorem AddEndpoints_without_service_is_noop_witness :
    AddEndpoints
        (sampleWorld { scenarioSvc with Spec := { scenarioSvc.Spec with ClusterIP := "" } })
        scenarioEp =
      ([{ site := [], call := Call.GetService "default" "web" }], Outcome.returned none) ∧
    (AddEndpoints
        (sampleWorld { scenarioSvc with Spec := { scenarioSvc.Spec with ClusterIP := "" } })
        scenarioEp).1.filter (fun e => e.call.isLoadBalancerOp) = [] :=
  AddEndpoints_without_service_is_noop
    (sampleWorld { scenarioSvc with Spec := { scenarioSvc.Spec with ClusterIP := "" } })
    scenarioEp (Or.inr ⟨_, rfl, by decide⟩)

/-! ### deleteEndpoints (C5) -/

theorem deletePorts_mutations (W : World) (svc : Service) (lbOf : Nat → String → String)
    (l : List (Nat × ServicePort))
    (hlb : ∀ isp ∈ l, W.getLoadBalancer [isp.1] isp.2.Protocol = some (lbOf isp.1 isp.2.Protocol)) :
    (l.flatMap (fun isp => deletePortBody W svc isp.1 isp.2)).filter
        (fun e => e.call.isMutation) =
      l.map (fun isp =>
        { site := [isp.1],
          call := Call.RunOVNNbctl ["remove", "load_balancer", lbOf isp.1 isp.2.Protocol, "vips",
            vipKey svc.Spec.ClusterIP isp.2.Port] }) := by
  induction l with
  | nil => rfl
  | cons x xs ih =>
    have hx := hlb x (List.mem_cons_self _ _)
    have ih1 := ih (fun q hq => hlb q (List.mem_cons_of_mem _ hq))
    rw [List.flatMap_cons, List.filter_append, ih1]
    simp [deletePortBody, hx, Call.isMutation]

/-- C5: when the owning service exists with its cluster IP set and the load-balancer
lookup succeeds for every declared port, `deleteEndpoints` returns nil and the
load-balancer mutations it issues are exactly one `ovn-nbctl remove load_balancer <lb>
vips "<clusterIP>:<port>"` per declared service port, in declaration order, on the load
balancer resolved for that port; nothing depends on the service type, NodePorts,
external IPs, the Endpoints subsets or the result of any removal. -/
theorem deleteEndpoints_removes_one_key_per_port (W : World) (ep : Endpoints) (svc : Service)
    (lbOf : Nat → String → String)
    (hsvc : W.GetService [] ep.Namespace ep.Name = some svc)
    (hip : W.IsClusterIPSet svc = true)
    (hlb : ∀ isp ∈ svc.Spec.Ports.enum,
      W.getLoadBalancer [isp.1] isp.2.Protocol = some (lbOf isp.1 isp.2.Protocol)) :
    (deleteEndpoints W ep).2 = Outcome.returned none ∧
    (deleteEndpoints W ep).1.filter (fun e => e.call.isMutation) =
      svc.Spec.Ports.enum.map (fun isp =>
        { site := [isp.1],
          call := Call.RunOVNNbctl ["remove", "load_balancer", lbOf isp.1 isp.2.Protocol, "vips",
            vipKey svc.Spec.ClusterIP isp.2.Port] }) := by
  have e : deleteEndpoints W ep =
      ({ site := [], call := Call.GetService ep.Namespace ep.Name } ::
        svc.Spec.Ports.enum.flatMap (fun isp => deletePortBody W svc isp.1 isp.2),
       Outcome.returned none) := by
    simp only [deleteEndpoints, hsvc, hip]
    rfl
  rw [e]
  refine ⟨rfl, ?_⟩
  rw [List.filter_cons]
  simp only [Call.isMutation, Bool.false_eq_true, if_false]
  exact deletePorts_mutations W svc lbOf _ hlb

/-- Witness of C5 on the scenario: one removal, of the key "10.96.0.5:80" in quotes. -/
theorem deleteEndpoints_removes_one_key_per_port_witness :
    (deleteEndpoints (sampleWorld scenarioSvc) scenarioEp).2 = Outcome.returned none ∧
    (deleteEndpoints (sampleWorld scenarioSvc) scenarioEp).1.filter
        (fun e => e.call.isMutation) =
      [{ site := [0],
         call := Call.RunOVNNbctl
           ["remove", "load_balancer", "lb-TCP", "vips", "\"10.96.0.5:80\""] }] :=
  deleteEndpoints_removes_one_key_per_port (sampleWorld scenarioSvc) scenarioEp scenarioSvc
    (fun _ p => "lb-" ++ p) rfl (by decide) (by decide)

/-! ### handleNodePortLB: readiness timeout (C6) -/

theorem pollCondition_probes (W : World) (gw : String) (k : Nat) :
    ∀ e ∈ (pollCondition W gw k).1, e.call.isProbe = true := by
  have hall : (pollCondition W gw k).1.all (fun e => e.call.isProbe) = true := by
    unfold pollCondition
    simp only
    split_ifs <;> rfl
  intro e he
  exact List.all_eq_true.mp hall e he

theorem pollLoop_timeout (W : World) (gw : String) (n : Nat) :
    ∀ k, (∀ j, k ≤ j → j < k + n → (pollCondition W gw j).2 = none) →
      (pollLoop W gw k n).2 = none := by
  induction n with
  | zero => intro k _; rfl
  | succ n ih =>
    intro k h
    have h0 := h k (Nat.le_refl _) (by omega)
    have ih1 := ih (k + 1) (fun j h1 h2 => h j (by omega) (by omega))
    rcases hc : pollCondition W gw k with ⟨evs, r⟩
    rw [hc] at h0
    simp only at h0
    subst h0
    simp only [pollLoop, hc, ih1]

theorem pollLoop_probes (W : World) (gw : String) (n : Nat) :
    ∀ k, ∀ e ∈ (pollLoop W gw k n).1, e.call.isProbe = true := by
  induction n with
  | zero => intro k e he; simp [pollLoop] at he
  | succ n ih =>
    intro k e he
    have hp := pollCondition_probes W gw k
    rcases hc : pollCondition W gw k with ⟨evs, r⟩
    rw [hc] at hp
    cases r with
    | some g =>
      simp only [pollLoop, hc] at he
      exact hp e he
    | none =>
      simp only [pollLoop, hc, List.mem_append] at he
      rcases he with he | he
      · exact hp e he
      · exact ih (k + 1) e he

theorem pollCondition_none_of_signal (W : World) (gw : String) (k : Nat)
    (h : W.getGatewayLoadBalancer [k] gw TCP = "" ∨ W.getGatewayLoadBalancer [k] gw UDP = "" ∨
      W.getGatewayPhysicalIP [k] gw = "") :
    (pollCondition W gw k).2 = none := by
  unfold pollCondition
  simp only
  split_ifs with h1 h2 h3
  · rfl
  · rfl
  · rfl
  · rcases h with h | h | h <;> contradiction

/-- C6: if at every iteration of the readiness poll one of the three signals (TCP
gateway load balancer, UDP gateway load balancer, physical IP of gateway
"GR_" + node name) is empty, `handleNodePortLB` returns normally and every call it has
issued is a readiness probe: no VIP creation, no enumeration of namespaces, endpoints or
services. -/
theorem handleNodePortLB_timeout_no_backfill (W : World) (node : Node)
    (h : ∀ k, k < W.pollAttempts →
      W.getGatewayLoadBalancer [k] ("GR_" ++ node.Name) TCP = "" ∨
      W.getGatewayLoadBalancer [k] ("GR_" ++ node.Name) UDP = "" ∨
      W.getGatewayPhysicalIP [k] ("GR_" ++ node.Name) = "") :
    (handleNodePortLB W node).2 = Outcome.returned none ∧
    (∀ e ∈ (handleNodePortLB W node).1, e.call.isProbe = true) ∧
    (handleNodePortLB W node).1.filter (fun e => !e.call.isProbe) = [] := by
  have ht : (pollLoop W ("GR_" ++ node.Name) 0 W.pollAttempts).2 = none :=
    pollLoop_timeout W _ _ 0 (fun j _ h2 =>
      pollCondition_none_of_signal W _ j (h j (by omega)))
  have hp := pollLoop_probes W ("GR_" ++ node.Name) W.pollAttempts 0
  rcases hc : pollLoop W ("GR_" ++ node.Name) 0 W.pollAttempts with ⟨evs, r⟩
  rw [hc] at ht hp
  simp only at ht
  subst ht
  have e : handleNodePortLB W node = (evs, Outcome.returned none) := by
    simp only [handleNodePortLB, hc]
  rw [e]
  refine ⟨rfl, hp, ?_⟩
  rw [List.filter_eq_nil_iff]
  intro a ha
  simp [hp a ha]

/-- Witness of C6: the TCP and UDP gateway load balancers are observed at every
iteration but the physical IP never is. -/
theorem handleNodePortLB_timeout_no_backfill_witness :
    (handleNodePortLB timeoutWorld { Name := "node1" }).2 = Outcome.returned none ∧
    (∀ e ∈ (handleNodePortLB timeoutWorld { Name := "node1" }).1, e.call.isProbe = true) ∧
    (handleNodePortLB timeoutWorld { Name := "node1" }).1.filter
      (fun e => !e.call.isProbe) = [] :=
  handleNodePortLB_timeout_no_backfill timeoutWorld { Name := "node1" }
    (fun _ _ => Or.inr (Or.inr rfl))

/-! ### Keys of the backend table -/

theorem mapSet_keys (m : PortMap) (k : String) (v : lbEndpoints) :
    (mapSet m k v).map Prod.fst =
      if k ∈ m.map Prod.fst then m.map Prod.fst else m.map Prod.fst ++ [k] := by
  induction m with
  | nil => simp [mapSet]
  | cons hd tl ih =>
    obtain ⟨k1, v1⟩ := hd
    by_cases h1 : k1 = k
    · subst h1
      simp [mapSet]
    · have h2 : ¬ k = k1 := fun h => h1 h.symm
      simp only [mapSet, h1, if_false, List.map_cons, ih, List.mem_cons, h2, false_or]
      split_ifs <;> simp

theorem KeysNodup_mapSet (m : PortMap) (k : String) (v : lbEndpoints) (h : KeysNodup m) :
    KeysNodup (mapSet m k v) := by
  unfold KeysNodup at *
  rw [mapSet_keys]
  split_ifs with hk
  · exact h
  · rw [List.nodup_append]
    refine ⟨h, List.nodup_singleton k, ?_⟩
    intro a ha hb
    simp at hb
    subst hb
    exact hk ha

theorem lbEndpointsBody_keys (ip : EndpointAddress) (port : EndpointPort) (maps maps1 : PortMaps)
    (h : lbEndpointsBody ip port maps = some maps1)
    (h1 : KeysNodup maps.tcpPortMap) (h2 : KeysNodup maps.udpPortMap) :
    KeysNodup maps1.tcpPortMap ∧ KeysNodup maps1.udpPortMap := by
  unfold lbEndpointsBody at h
  simp only at h
  cases hs : selectMap port with
  | nilMap => rw [hs] at h; simp [writeMap] at h
  | tcpPortMap =>
    rw [hs] at h
    simp only [writeMap, Option.some.injEq] at h
    subst h
    exact ⟨KeysNodup_mapSet _ _ _ h1, h2⟩
  | udpPortMap =>
    rw [hs] at h
    simp only [writeMap, Option.some.injEq] at h
    subst h
    exact ⟨h1, KeysNodup_mapSet _ _ _ h2⟩

theorem portsLoop_keys (ip : EndpointAddress) (ports : List EndpointPort) :
    ∀ (maps maps1 : PortMaps), portsLoop ip ports maps = some maps1 →
      KeysNodup maps.tcpPortMap → KeysNodup maps.udpPortMap →
      KeysNodup maps1.tcpPortMap ∧ KeysNodup maps1.udpPortMap := by
  induction ports with
  | nil =>
    intro maps maps1 h h1 h2
    simp only [portsLoop, Option.some.injEq] at h
    subst h
    exact ⟨h1, h2⟩
  | cons p ps ih =>
    intro maps maps1 h h1 h2
    cases hb : lbEndpointsBody ip p maps with
    | none => simp [portsLoop, hb] at h
    | some m =>
      simp only [portsLoop, hb] at h
      obtain ⟨a, b⟩ := lbEndpointsBody_keys ip p maps m hb h1 h2
      exact ih m maps1 h a b

theorem addressesLoop_keys (ports : List EndpointPort) (addrs : List EndpointAddress) :
    ∀ (maps maps1 : PortMaps), addressesLoop ports addrs maps = some maps1 →
      KeysNodup maps.tcpPortMap → KeysNodup maps.udpPortMap →
      KeysNodup maps1.tcpPortMap ∧ KeysNodup maps1.udpPortMap := by
  induction addrs with
  | nil =>
    intro maps maps1 h h1 h2
    simp only [addressesLoop, Option.some.injEq] at h
    subst h
    exact ⟨h1, h2⟩
  | cons ip rest ih =>
    intro maps maps1 h h1 h2
    cases hb : portsLoop ip ports maps with
    | none => simp [addressesLoop, hb] at h
    | some m =>
      simp only [addressesLoop, hb] at h
      obtain ⟨a, b⟩ := portsLoop_keys ip ports maps m hb h1 h2
      exact ih m maps1 h a b

theorem subsetsLoop_keys (subsets : List EndpointSubset) :
    ∀ (maps maps1 : PortMaps), subsetsLoop subsets maps = some maps1 →
      KeysNodup maps.tcpPortMap → KeysNodup maps.udpPortMap →
      KeysNodup maps1.tcpPortMap ∧ KeysNodup maps1.udpPortMap := by
  induction subsets with
  | nil =>
    intro maps maps1 h h1 h2
    simp only [subsetsLoop, Option.some.injEq] at h
    subst h
    exact ⟨h1, h2⟩
  | cons s rest ih =>
    intro maps maps1 h h1 h2
    cases hb : addressesLoop s.Ports s.Addresses maps with
    | none => simp [subsetsLoop, hb] at h
    | some m =>
      simp only [subsetsLoop, hb] at h
      obtain ⟨a, b⟩ := addressesLoop_keys s.Ports s.Addresses maps m hb h1 h2
      exact ih m maps1 h a b

theorem getLbEndpoints_keys (ep : Endpoints) (maps : PortMaps)
    (h : getLbEndpoints ep [] [] = some maps) :
    KeysNodup maps.tcpPortMap ∧ KeysNodup maps.udpPortMap :=
  subsetsLoop_keys ep.Subsets _ maps h List.nodup_nil List.nodup_nil

theorem mapGet_eq_some_iff (m : PortMap) (hm : KeysNodup m) (n : String) (e : lbEndpoints) :
    mapGet m n = some e ↔ (n, e) ∈ m := by
  induction m with
  | nil => simp [mapGet]
  | cons hd tl ih =>
    obtain ⟨k1, v1⟩ := hd
    unfold KeysNodup at hm
    simp only [List.map_cons, List.nodup_cons] at hm
    have ih1 := ih hm.2
    by_cases h1 : k1 = n
    · subst h1
      simp only [mapGet, if_true, Option.some.injEq, List.mem_cons, Prod.mk.injEq, true_and]
      constructor
      · intro h; exact Or.inl h.symm
      · rintro (h | h)
        · exact h.symm
        · exact absurd (List.mem_map_of_mem Prod.fst h) hm.1
    · simp only [mapGet, h1, if_false, List.mem_cons, Prod.mk.injEq]
      rw [ih1]
      constructor
      · intro h; exact Or.inr h
      · rintro (⟨h, _⟩ | h)
        · exact absurd h.symm h1
        · exact h

theorem KeysNodup_perm (m m1 : PortMap) (hp : m1.Perm m) (hm : KeysNodup m) : KeysNodup m1 := by
  unfold KeysNodup at *
  exact (List.Perm.nodup_iff (hp.map Prod.fst)).mpr hm

theorem mapGet_perm (m m1 : PortMap) (hp : m1.Perm m) (hm : KeysNodup m) (n : String) :
    mapGet m1 n = mapGet m n := by
  have hm1 := KeysNodup_perm m m1 hp hm
  cases h : mapGet m n with
  | some e =>
    rw [mapGet_eq_some_iff m hm] at h
    rw [mapGet_eq_some_iff m1 hm1]
    exact hp.mem_iff.mpr h
  | none =>
    cases h1 : mapGet m1 n with
    | none => rfl
    | some e =>
      rw [mapGet_eq_some_iff m1 hm1] at h1
      have := (mapGet_eq_some_iff m hm n e).mpr (hp.mem_iff.mp h1)
      rw [h] at this
      cases this

theorem flatMap_key (m : PortMap) (hm : KeysNodup m) (n : String)
    (g : lbEndpoints → List Event) :
    m.flatMap (fun kv => if kv.1 = n then g kv.2 else []) =
      match mapGet m n with
      | some e => g e
      | none => [] := by
  induction m with
  | nil => rfl
  | cons hd tl ih =>
    obtain ⟨k1, v1⟩ := hd
    unfold KeysNodup at hm
    simp only [List.map_cons, List.nodup_cons] at hm
    have ih1 := ih hm.2
    rw [List.flatMap_cons, ih1]
    by_cases h1 : k1 = n
    · subst h1
      have : mapGet tl k1 = none := by
        cases h : mapGet tl k1 with
        | none => rfl
        | some e =>
          rw [mapGet_eq_some_iff tl hm.2] at h
          exact absurd (List.mem_map_of_mem Prod.fst h) hm.1
      simp [mapGet, this]
    · simp [mapGet, h1]

/-! ### The calls that AddEndpoints issues for one declared service port -/

theorem filter_onPort_of_site (q i : Nat) (l : List Event)
    (h : ∀ e ∈ l, e.site.head? = some i) :
    l.filter (onPort q) = if i = q then l else [] := by
  split_ifs with hq
  · subst hq
    rw [List.filter_eq_self]
    intro e he
    simp [onPort, h e he]
  · rw [List.filter_eq_nil_iff]
    intro e he
    simp [onPort, h e he, hq]

theorem enumFrom_flatMap_onPort {α : Type} (f : Nat → α → List Event)
    (hf : ∀ i x, ∀ e ∈ f i x, e.site.head? = some i) (q : Nat) (l : List α) :
    ∀ k, ((l.enumFrom k).flatMap (fun ix => f ix.1 ix.2)).filter (onPort q) =
      if k ≤ q then (l[q - k]?).elim [] (f q) else [] := by
  induction l with
  | nil => intro k; simp
  | cons x xs ih =>
    intro k
    rw [List.enumFrom_cons, List.flatMap_cons, List.filter_append, ih (k + 1),
      filter_onPort_of_site q k _ (hf k x)]
    by_cases h1 : k = q
    · subst h1
      simp
    · by_cases h2 : k + 1 ≤ q
      · have h3 : k ≤ q := by omega
        have h4 : q - k = (q - (k + 1)) + 1 := by omega
        simp only [h1, if_false, h2, if_true, h3, List.nil_append]
        rw [h4, List.getElem?_cons_succ]
      · have h3 : ¬ k ≤ q := by omega
        simp [h1, h2, h3]

theorem enum_flatMap_onPort {α : Type} (f : Nat → α → List Event)
    (hf : ∀ i x, ∀ e ∈ f i x, e.site.head? = some i) (q : Nat) (l : List α) :
    (l.enum.flatMap (fun ix => f ix.1 ix.2)).filter (onPort q) = (l[q]?).elim [] (f q) := by
  have := enumFrom_flatMap_onPort f hf q l 0
  simpa [List.enum] using this

theorem handleExternalIPs_site (W : World) (i : Nat) (svc : Service) (svcPort : ServicePort)
    (ips : List String) (targetPort : Int) :
    ∀ e ∈ handleExternalIPs W [i] svc svcPort ips targetPort, e.site.head? = some i := by
  intro e he
  unfold handleExternalIPs at he
  split_ifs at he
  · simp at he
  · simp only [List.mem_flatMap] at he
    obtain ⟨je, _, hje⟩ := he
    unfold externalIPBody at hje
    simp only at hje
    split_ifs at hje <;> simp at hje
    · subst hje; rfl
    · rcases hje with h | h <;> subst h <;> rfl

theorem clusterIPBranch_site (W : World) (svc : Service) (i : Nat) (svcPort : ServicePort)
    (ips : List String) (targetPort : Int) :
    ∀ e ∈ clusterIPBranch W svc i svcPort ips targetPort, e.site.head? = some i := by
  intro e he
  unfold clusterIPBranch at he
  split_ifs at he
  · simp only [List.mem_cons] at he
    rcases he with h | he
    · subst h; rfl
    · cases hl : W.getLoadBalancer [i] svcPort.Protocol with
      | none => rw [hl] at he; simp at he
      | some lb =>
        rw [hl] at he
        simp only [List.mem_cons] at he
        rcases he with h | he
        · subst h; rfl
        · split_ifs at he
          · exact handleExternalIPs_site W i svc svcPort ips targetPort e he
          · simp at he
  · simp at he

theorem servicePortBody_site (W : World) (svc : Service) (i : Nat) (svcPort : ServicePort)
    (ips : List String) (targetPort : Int) :
    ∀ e ∈ servicePortBody W svc i svcPort ips targetPort, e.site.head? = some i := by
  intro e he
  unfold servicePortBody at he
  split_ifs at he
  · simp only [List.mem_cons] at he
    rcases he with h | he
    · subst h; rfl
    · exact clusterIPBranch_site W svc i svcPort ips targetPort e he
  · simp only [List.mem_cons] at he
    rcases he with h | he
    · subst h; rfl
    · simp at he
  · exact clusterIPBranch_site W svc i svcPort ips targetPort e he

theorem servicePortsLoop_onPort (W : World) (svc : Service) (proto n : String)
    (lbEps : lbEndpoints) (q : Nat) :
    (servicePortsLoop W svc proto n lbEps).filter (onPort q) =
      (svc.Spec.Ports[q]?).elim [] (fun sp =>
        if sp.Protocol = proto ∧ sp.Name = n
        then servicePortBody W svc q sp lbEps.IPs lbEps.Port else []) := by
  unfold servicePortsLoop
  refine enum_flatMap_onPort
    (fun i sp => if sp.Protocol = proto ∧ sp.Name = n
      then servicePortBody W svc i sp lbEps.IPs lbEps.Port else []) ?_ q svc.Spec.Ports
  intro i sp e he
  simp only at he
  split_ifs at he
  · exact servicePortBody_site W svc i sp _ _ e he
  · simp at he

theorem portMapLoop_onPort (W : World) (svc : Service) (proto : String) (visited : PortMap)
    (hv : KeysNodup visited) (q : Nat) :
    (portMapLoop W svc proto visited).filter (onPort q) =
      (svc.Spec.Ports[q]?).elim [] (fun sp =>
        if sp.Protocol = proto then
          (mapGet visited sp.Name).elim []
            (fun e => servicePortBody W svc q sp e.IPs e.Port)
        else []) := by
  unfold portMapLoop
  rw [List.filter_flatMap]
  simp only [servicePortsLoop_onPort]
  cases hq : svc.Spec.Ports[q]? with
  | none => simp
  | some sp =>
    simp only [Option.elim_some]
    by_cases hp : sp.Protocol = proto
    · simp only [hp, true_and, if_true]
      have := flatMap_key visited hv sp.Name
        (fun e => servicePortBody W svc q sp e.IPs e.Port)
      have e2 : (mapGet visited sp.Name).elim []
          (fun e => servicePortBody W svc q sp e.IPs e.Port) =
          match mapGet visited sp.Name with
          | some e => servicePortBody W svc q sp e.IPs e.Port
          | none => [] := by
        cases mapGet visited sp.Name <;> rfl
      rw [e2, ← this]
      congr 1
      funext kv
      by_cases hk : kv.1 = sp.Name
      · simp [hk]
      · have : ¬ sp.Name = kv.1 := fun h => hk h.symm
        simp [hk, this]
    · simp [hp]

theorem AddEndpoints_eq (W : World) (ep : Endpoints) (svc : Service) (maps : PortMaps)
    (hsvc : W.GetService [] ep.Namespace ep.Name = some svc)
    (hip : W.IsClusterIPSet svc = true)
    (hmaps : getLbEndpoints ep [] [] = some maps) :
    AddEndpoints W ep =
      ({ site := [], call := Call.GetService ep.Namespace ep.Name } ::
        (portMapLoop W svc ProtocolTCP (W.mapOrder [0] maps.tcpPortMap) ++
         portMapLoop W svc ProtocolUDP (W.mapOrder [1] maps.udpPortMap)),
       Outcome.returned none) := by
  simp only [AddEndpoints, hsvc, hip, hmaps]
  rfl

theorem AddEndpoints_fault (W : World) (ep : Endpoints) (svc : Service)
    (hsvc : W.GetService [] ep.Namespace ep.Name = some svc)
    (hip : W.IsClusterIPSet svc = true)
    (hmaps : getLbEndpoints ep [] [] = none) :
    AddEndpoints W ep =
      ([{ site := [], call := Call.GetService ep.Namespace ep.Name }], Outcome.panicked) := by
  simp only [AddEndpoints, hsvc, hip, hmaps]
  rfl

theorem AddEndpoints_onPort (W : World) (ep : Endpoints) (svc : Service) (maps : PortMaps)
    (hsvc : W.GetService [] ep.Namespace ep.Name = some svc)
    (hip : W.IsClusterIPSet svc = true)
    (hmaps : getLbEndpoints ep [] [] = some maps) (q : Nat) :
    (AddEndpoints W ep).1.filter (onPort q) =
      (svc.Spec.Ports[q]?).elim [] (fun sp =>
        (tableEntry maps sp.Protocol sp.Name).elim []
          (fun e => servicePortBody W svc q sp e.IPs e.Port)) := by
  obtain ⟨k1, k2⟩ := getLbEndpoints_keys ep maps hmaps
  have v1 := KeysNodup_perm _ _ (W.mapOrder_perm [0] maps.tcpPortMap) k1
  have v2 := KeysNodup_perm _ _ (W.mapOrder_perm [1] maps.udpPortMap) k2
  rw [AddEndpoints_eq W ep svc maps hsvc hip hmaps]
  simp only
  rw [List.filter_cons, List.filter_append, portMapLoop_onPort W svc _ _ v1,
    portMapLoop_onPort W svc _ _ v2]
  simp only [mapGet_perm _ _ (W.mapOrder_perm [0] maps.tcpPortMap) k1,
    mapGet_perm _ _ (W.mapOrder_perm [1] maps.udpPortMap) k2]
  have h0 : onPort q { site := [], call := Call.GetService ep.Namespace ep.Name } = false := by
    simp [onPort]
  simp only [h0, Bool.false_eq_true, if_false]
  cases hq : svc.Spec.Ports[q]? with
  | none => simp
  | some sp =>
    simp only [tableEntry, Option.elim_some]
    have t1 : ¬ ProtocolTCP = ProtocolUDP := tcp_ne_udp
    have t2 : ¬ ProtocolUDP = ProtocolTCP := Ne.symm tcp_ne_udp
    by_cases h1 : sp.Protocol = ProtocolTCP
    · simp only [h1, t1, if_true, if_false, List.append_nil]
    · by_cases h2 : sp.Protocol = ProtocolUDP
      · simp only [h2, t2, if_true, if_false, List.nil_append]
      · simp only [h1, h2, if_false, List.append_nil, Option.elim_none]

/-! ### AddEndpoints: cluster-IP VIP creations (C1) -/

theorem handleExternalIPs_sites (W : World) (i : Nat) (svc : Service) (svcPort : ServicePort)
    (ips : List String) (targetPort : Int) :
    ∀ e ∈ handleExternalIPs W [i] svc svcPort ips targetPort, ∃ j, e.site = [i, j] := by
  intro e he
  unfold handleExternalIPs at he
  split_ifs at he
  · simp at he
  · simp only [List.mem_flatMap] at he
    obtain ⟨je, _, hje⟩ := he
    unfold externalIPBody at hje
    simp only at hje
    split_ifs at hje <;> simp at hje
    · subst hje; exact ⟨je.1, rfl⟩
    · rcases hje with h | h <;> subst h <;> exact ⟨je.1, rfl⟩

theorem handleExternalIPs_no_clusterVIP (W : World) (i : Nat) (svc : Service)
    (svcPort : ServicePort) (ips : List String) (targetPort : Int) :
    (handleExternalIPs W [i] svc svcPort ips targetPort).filter isClusterVIPCreation = [] := by
  rw [List.filter_eq_nil_iff]
  intro e he
  obtain ⟨j, hj⟩ := handleExternalIPs_sites W i svc svcPort ips targetPort e he
  simp [isClusterVIPCreation, hj]

theorem clusterIPBranch_clusterVIPs (W : World) (svc : Service) (i : Nat) (svcPort : ServicePort)
    (ips : List String) (targetPort : Int) (lb : String)
    (hcip : W.ServiceTypeHasClusterIP svc = true)
    (hlb : W.getLoadBalancer [i] svcPort.Protocol = some lb) :
    (clusterIPBranch W svc i svcPort ips targetPort).filter isClusterVIPCreation =
      [{ site := [i],
         call := Call.createLoadBalancerVIP lb svc.Spec.ClusterIP svcPort.Port ips targetPort }] := by
  unfold clusterIPBranch
  simp only [hcip, if_true, hlb]
  rw [List.filter_cons, List.filter_cons]
  simp only [isClusterVIPCreation, Bool.false_eq_true, if_false, if_true]
  split_ifs
  · rw [handleExternalIPs_no_clusterVIP]
  · rfl

theorem servicePortBody_clusterVIPs (W : World) (svc : Service) (i : Nat) (svcPort : ServicePort)
    (ips : List String) (targetPort : Int) (lb : String)
    (hcip : W.ServiceTypeHasClusterIP svc = true)
    (hnp : (W.ServiceTypeHasNodePort svc && W.NodeportEnable) = false ∨
      ∀ s P np tp bs, W.createGatewaysVIP s P np tp bs = true)
    (hlb : W.getLoadBalancer [i] svcPort.Protocol = some lb) :
    (servicePortBody W svc i svcPort ips targetPort).filter isClusterVIPCreation =
      [{ site := [i],
         call := Call.createLoadBalancerVIP lb svc.Spec.ClusterIP svcPort.Port ips targetPort }] := by
  unfold servicePortBody
  by_cases hg : (W.ServiceTypeHasNodePort svc && W.NodeportEnable) = true
  · have hs : ∀ s P np tp bs, W.createGatewaysVIP s P np tp bs = true := by
      rcases hnp with h | h
      · rw [hg] at h; cases h
      · exact h
    simp only [hg, if_true, hs]
    rw [List.filter_cons]
    simp only [isClusterVIPCreation, Bool.false_eq_true, if_false]
    exact clusterIPBranch_clusterVIPs W svc i svcPort ips targetPort lb hcip hlb
  · simp only [hg, if_false, Bool.false_eq_true]
    exact clusterIPBranch_clusterVIPs W svc i svcPort ips targetPort lb hcip hlb

theorem servicePorts_clusterVIPs (W : World) (svc : Service) (lbOf : Nat → String → String)
    (proto n : String) (lbEps : lbEndpoints)
    (hcip : W.ServiceTypeHasClusterIP svc = true)
    (hnp : (W.ServiceTypeHasNodePort svc && W.NodeportEnable) = false ∨
      ∀ s P np tp bs, W.createGatewaysVIP s P np tp bs = true)
    (l : List (Nat × ServicePort))
    (hlb : ∀ isp ∈ l,
      W.getLoadBalancer [isp.1] isp.2.Protocol = some (lbOf isp.1 isp.2.Protocol)) :
    (l.flatMap (fun isp =>
        if isp.2.Protocol = proto ∧ isp.2.Name = n
        then servicePortBody W svc isp.1 isp.2 lbEps.IPs lbEps.Port
        else [])).filter isClusterVIPCreation =
      (l.filter (fun isp => decide (isp.2.Protocol = proto ∧ isp.2.Name = n))).map
        (fun isp =>
          { site := [isp.1],
            call := Call.createLoadBalancerVIP (lbOf isp.1 proto) svc.Spec.ClusterIP isp.2.Port
              lbEps.IPs lbEps.Port }) := by
  induction l with
  | nil => rfl
  | cons x xs ih =>
    have hx := hlb x (List.mem_cons_self _ _)
    have ih1 := ih (fun q hq => hlb q (List.mem_cons_of_mem _ hq))
    rw [List.flatMap_cons, List.filter_append, ih1, List.filter_cons]
    by_cases hm : x.2.Protocol = proto ∧ x.2.Name = n
    · rw [if_pos hm, if_pos (by simpa using hm),
        servicePortBody_clusterVIPs W svc x.1 x.2 _ _ _ hcip hnp hx, hm.1]
      rfl
    · rw [if_neg hm, if_neg (by simpa using hm)]
      rfl

theorem portMapLoop_clusterVIPs (W : World) (svc : Service) (lbOf : Nat → String → String)
    (proto : String)
    (hcip : W.ServiceTypeHasClusterIP svc = true)
    (hnp : (W.ServiceTypeHasNodePort svc && W.NodeportEnable) = false ∨
      ∀ s P np tp bs, W.createGatewaysVIP s P np tp bs = true)
    (hlb : ∀ isp ∈ svc.Spec.Ports.enum,
      W.getLoadBalancer [isp.1] isp.2.Protocol = some (lbOf isp.1 isp.2.Protocol))
    (visited : PortMap) :
    (portMapLoop W svc proto visited).filter isClusterVIPCreation =
      pairedClusterVIPs lbOf svc proto visited := by
  unfold portMapLoop pairedClusterVIPs
  rw [List.filter_flatMap]
  congr 1
  funext kv
  exact servicePorts_clusterVIPs W svc lbOf proto kv.1 kv.2 hcip hnp _ hlb

theorem pairedClusterVIPs_perm (lbOf : Nat → String → String) (svc : Service) (proto : String)
    (m m1 : PortMap) (h : m1.Perm m) :
    (pairedClusterVIPs lbOf svc proto m1).Perm (pairedClusterVIPs lbOf svc proto m) :=
  List.Perm.flatMap_right _ h

/-- C1: when `GetService` finds `svc`, the cluster IP is set, the service type exposes a
cluster IP, the NodePort branch is not taken or succeeds, and the load-balancer lookup
succeeds for every declared port, the cluster-IP VIP creations issued by `AddEndpoints`
are exactly one `createLoadBalancerVIP(lb, clusterIP, svcPort.Port, ips, targetPort)` for
each pair of an entry of the table built by `getLbEndpoints` and a declared service port
with the entry's protocol and name (in the order the maps are visited, TCP first), and
no call at all is issued for a declared port without such an entry; when
`getLbEndpoints` faults it builds no table and no creation is issued.  On the scenario
of the specification this is the single call with virtual IP 10.96.0.5, virtual port
80, backends 10.0.0.1 and 10.0.0.2 and target port 8080. -/
theorem AddEndpoints_cluster_vips (W : World) (ep : Endpoints) (svc : Service)
    (lbOf : Nat → String → String)
    (hsvc : W.GetService [] ep.Namespace ep.Name = some svc)
    (hip : W.IsClusterIPSet svc = true)
    (hcip : W.ServiceTypeHasClusterIP svc = true)
    (hnp : (W.ServiceTypeHasNodePort svc && W.NodeportEnable) = false ∨
      ∀ s P np tp bs, W.createGatewaysVIP s P np tp bs = true)
    (hlb : ∀ isp ∈ svc.Spec.Ports.enum,
      W.getLoadBalancer [isp.1] isp.2.Protocol = some (lbOf isp.1 isp.2.Protocol)) :
    (getLbEndpoints ep [] [] = none →
      (AddEndpoints W ep).2 = Outcome.panicked ∧
      (AddEndpoints W ep).1.filter isClusterVIPCreation = []) ∧
    (∀ maps, getLbEndpoints ep [] [] = some maps →
      (AddEndpoints W ep).2 = Outcome.returned none ∧
      (AddEndpoints W ep).1.filter isClusterVIPCreation =
        pairedClusterVIPs lbOf svc ProtocolTCP (W.mapOrder [0] maps.tcpPortMap) ++
        pairedClusterVIPs lbOf svc ProtocolUDP (W.mapOrder [1] maps.udpPortMap) ∧
      ((AddEndpoints W ep).1.filter isClusterVIPCreation).Perm
        (pairedClusterVIPs lbOf svc ProtocolTCP maps.tcpPortMap ++
         pairedClusterVIPs lbOf svc ProtocolUDP maps.udpPortMap) ∧
      (∀ isp ∈ svc.Spec.Ports.enum, tableEntry maps isp.2.Protocol isp.2.Name = none →
        ∀ e ∈ (AddEndpoints W ep).1, e.site.head? ≠ some isp.1)) ∧
    (ep = scenarioEp → svc = scenarioSvc →
      (AddEndpoints W ep).1.filter isClusterVIPCreation =
        [{ site := [0],
           call := Call.createLoadBalancerVIP (lbOf 0 "TCP") "10.96.0.5" 80
             ["10.0.0.1", "10.0.0.2"] 8080 }]) := by
  have main : ∀ maps, getLbEndpoints ep [] [] = some maps →
      (AddEndpoints W ep).1.filter isClusterVIPCreation =
        pairedClusterVIPs lbOf svc ProtocolTCP (W.mapOrder [0] maps.tcpPortMap) ++
        pairedClusterVIPs lbOf svc ProtocolUDP (W.mapOrder [1] maps.udpPortMap) := by
    intro maps hmaps
    rw [AddEndpoints_eq W ep svc maps hsvc hip hmaps]
    simp only
    rw [List.filter_cons, List.filter_append,
      portMapLoop_clusterVIPs W svc lbOf _ hcip hnp hlb,
      portMapLoop_clusterVIPs W svc lbOf _ hcip hnp hlb]
    rfl
  refine ⟨?_, ?_, ?_⟩
  · intro hnone
    rw [AddEndpoints_fault W ep svc hsvc hip hnone]
    exact ⟨rfl, rfl⟩
  · intro maps hmaps
    refine ⟨by rw [AddEndpoints_eq W ep svc maps hsvc hip hmaps], main maps hmaps, ?_, ?_⟩
    · rw [main maps hmaps]
      exact List.Perm.append
        (pairedClusterVIPs_perm lbOf svc _ _ _ (W.mapOrder_perm [0] maps.tcpPortMap))
        (pairedClusterVIPs_perm lbOf svc _ _ _ (W.mapOrder_perm [1] maps.udpPortMap))
    · intro isp hisp hnone e he hsite
      have hq : svc.Spec.Ports[isp.1]? = some isp.2 := List.mk_mem_enum_iff_getElem?.mp hisp
      have hf := AddEndpoints_onPort W ep svc maps hsvc hip hmaps isp.1
      rw [hq, Option.elim_some, hnone, Option.elim_none, List.filter_eq_nil_iff] at hf
      exact hf e he (by simp [onPort, hsite])
  · intro hep hs
    subst hep
    subst hs
    rw [main _ scenario_table]
    have e0 : W.mapOrder [0] [("web", { IPs := ["10.0.0.1", "10.0.0.2"], Port := 8080 })] =
        [("web", { IPs := ["10.0.0.1", "10.0.0.2"], Port := 8080 })] :=
      List.perm_singleton.mp (W.mapOrder_perm [0] _)
    have e1 : W.mapOrder [1] [] = [] := List.perm_nil.mp (W.mapOrder_perm [1] _)
    simp only [e0, e1]
    rfl

/-- Witness of C1: the scenario of the specification, every call succeeding. -/
theorem AddEndpoints_cluster_vips_witness :
    (AddEndpoints (sampleWorld scenarioSvc) scenarioEp).1.filter isClusterVIPCreation =
      [{ site := [0],
         call := Call.createLoadBalancerVIP "lb-TCP" "10.96.0.5" 80
           ["10.0.0.1", "10.0.0.2"] 8080 }] :=
  (AddEndpoints_cluster_vips (sampleWorld scenarioSvc) scenarioEp scenarioSvc
    (fun _ p => "lb-" ++ p) rfl (by decide) (by decide) (Or.inl (by decide))
    (by decide)).2.2 rfl rfl

/-! ### AddEndpoints: external-IP VIP creations (C7) -/

theorem handleExternalIPs_externalVIPs (W : World) (i : Nat) (svc : Service)
    (svcPort : ServicePort) (ips : List String) (targetPort : Int) :
    (handleExternalIPs W [i] svc svcPort ips targetPort).filter isExternalVIPCreation =
      externalVIPs W svc i svcPort ips targetPort := by
  unfold handleExternalIPs externalVIPs
  split_ifs with h0
  · rw [List.length_eq_zero.mp h0]
    rfl
  · rw [List.filter_flatMap]
    congr 1
    funext je
    unfold externalIPBody
    simp only [List.singleton_append]
    by_cases hl : W.getDefaultGatewayLoadBalancer [i, je.1] svcPort.Protocol = ""
    · rw [if_pos hl]
      rfl
    · rw [if_neg hl]
      rfl

theorem servicePortBody_externalVIPs (W : World) (svc : Service) (i : Nat)
    (svcPort : ServicePort) (ips : List String) (targetPort : Int) (lb : String)
    (hcip : W.ServiceTypeHasClusterIP svc = true)
    (hoff : W.NodeportEnable = false)
    (hlb : W.getLoadBalancer [i] svcPort.Protocol = some lb)
    (hcreate : W.createLoadBalancerVIP [i] lb svc.Spec.ClusterIP svcPort.Port ips targetPort
      = true) :
    servicePortBody W svc i svcPort ips targetPort =
      { site := [i], call := Call.getLoadBalancer svcPort.Protocol } ::
      { site := [i],
        call := Call.createLoadBalancerVIP lb svc.Spec.ClusterIP svcPort.Port ips targetPort } ::
      handleExternalIPs W [i] svc svcPort ips targetPort := by
  unfold servicePortBody clusterIPBranch
  simp [hoff, hcip, hlb, hcreate]

/-- C7: with NodePort programming disabled, for a service with its cluster IP set and a
type exposing a cluster IP, and a declared service port (index `i`) that matches a
backend-table entry and whose load-balancer lookup and cluster VIP creation succeed,
`AddEndpoints` issues for that port exactly one
`createLoadBalancerVIP(lb, e, svcPort.Port, ips, targetPort)` for every external IP `e`
whose default-gateway lookup returns a non-empty `lb`, with the backend list and target
port of the cluster VIP; no such call when the service has no external IP; an external
IP whose lookup is empty is skipped and the others are still served. -/
theorem AddEndpoints_external_vips (W : World) (ep : Endpoints) (svc : Service)
    (maps : PortMaps) (i : Nat) (svcPort : ServicePort) (entry : lbEndpoints) (lb : String)
    (hsvc : W.GetService [] ep.Namespace ep.Name = some svc)
    (hip : W.IsClusterIPSet svc = true)
    (hcip : W.ServiceTypeHasClusterIP svc = true)
    (hoff : W.NodeportEnable = false)
    (hmaps : getLbEndpoints ep [] [] = some maps)
    (hport : svc.Spec.Ports[i]? = some svcPort)
    (hentry : tableEntry maps svcPort.Protocol svcPort.Name = some entry)
    (hlb : W.getLoadBalancer [i] svcPort.Protocol = some lb)
    (hcreate : W.createLoadBalancerVIP [i] lb svc.Spec.ClusterIP svcPort.Port
      entry.IPs entry.Port = true) :
    (AddEndpoints W ep).1.filter (fun e => onPort i e && isExternalVIPCreation e) =
      externalVIPs W svc i svcPort entry.IPs entry.Port ∧
    (AddEndpoints W ep).1.filter (fun e => onPort i e && isClusterVIPCreation e) =
      [{ site := [i],
         call := Call.createLoadBalancerVIP lb svc.Spec.ClusterIP svcPort.Port
           entry.IPs entry.Port }] ∧
    (svc.Spec.ExternalIPs = [] →
      (AddEndpoints W ep).1.filter (fun e => onPort i e && isExternalVIPCreation e) = []) := by
  have hp := AddEndpoints_onPort W ep svc maps hsvc hip hmaps i
  rw [hport, Option.elim_some, hentry, Option.elim_some,
    servicePortBody_externalVIPs W svc i svcPort _ _ lb hcip hoff hlb hcreate] at hp
  have h1 : (AddEndpoints W ep).1.filter (fun e => onPort i e && isExternalVIPCreation e) =
      externalVIPs W svc i svcPort entry.IPs entry.Port := by
    have : (fun e => onPort i e && isExternalVIPCreation e) =
        (fun e => isExternalVIPCreation e && onPort i e) := by
      funext e; exact Bool.and_comm _ _
    rw [this, ← List.filter_filter, hp, List.filter_cons, List.filter_cons]
    simp only [isExternalVIPCreation, Bool.false_eq_true, if_false]
    exact handleExternalIPs_externalVIPs W i svc svcPort _ _
  refine ⟨h1, ?_, ?_⟩
  · have : (fun e => onPort i e && isClusterVIPCreation e) =
        (fun e => isClusterVIPCreation e && onPort i e) := by
      funext e; exact Bool.and_comm _ _
    rw [this, ← List.filter_filter, hp, List.filter_cons, List.filter_cons]
    simp only [isClusterVIPCreation, Bool.false_eq_true, if_false, if_true]
    rw [handleExternalIPs_no_clusterVIP]
  · intro hnil
    rw [h1]
    simp [externalVIPs, hnil]

/-- Witness of C7: the scenario's service with two external IPs, the lookup for the
first one empty: exactly the second one gets its VIP. -/
theorem AddEndpoints_external_vips_witness :
    (AddEndpoints externalWorld scenarioEp).1.filter
        (fun e => onPort 0 e && isExternalVIPCreation e) =
      [{ site := [0, 1],
         call := Call.createLoadBalancerVIP "gw-TCP" "192.0.2.2" 80
           ["10.0.0.1", "10.0.0.2"] 8080 }] :=
  (AddEndpoints_external_vips externalWorld scenarioEp externalSvc
    { tcpPortMap := [("web", { IPs := ["10.0.0.1", "10.0.0.2"], Port := 8080 })],
      udpPortMap := [] }
    0 { Name := "web", Protocol := "TCP", Port := 80, NodePort := 0 }
    { IPs := ["10.0.0.1", "10.0.0.2"], Port := 8080 } "lb-TCP"
    rfl (by decide) (by decide) rfl scenario_table rfl (by decide) rfl rfl).1

/-! ### AddEndpoints: a failure for one port does not affect the others (C9) -/

theorem handleExternalIPs_congr (p : Nat) (W1 W2 : World) (h : AgreeOffPort p W1 W2)
    (q : Nat) (hq : q ≠ p) (svc : Service) (svcPort : ServicePort) (ips : List String)
    (targetPort : Int) :
    handleExternalIPs W1 [q] svc svcPort ips targetPort =
      handleExternalIPs W2 [q] svc svcPort ips targetPort := by
  unfold handleExternalIPs
  split_ifs
  · rfl
  · congr 1
    funext je
    have hs : ([q] ++ [je.1]).head? ≠ some p := by simpa using hq
    unfold externalIPBody
    simp only [h.getDefaultGatewayLoadBalancer _ hs]

theorem servicePortBody_congr (p : Nat) (W1 W2 : World) (h : AgreeOffPort p W1 W2)
    (q : Nat) (hq : q ≠ p) (svc : Service) (svcPort : ServicePort) (ips : List String)
    (targetPort : Int) :
    servicePortBody W1 svc q svcPort ips targetPort =
      servicePortBody W2 svc q svcPort ips targetPort := by
  have hs : [q].head? ≠ some p := by simpa using hq
  unfold servicePortBody clusterIPBranch
  simp only [h.ServiceTypeHasNodePort, h.NodeportEnable, h.ServiceTypeHasClusterIP,
    h.createGatewaysVIP _ hs, h.getLoadBalancer _ hs, h.createLoadBalancerVIP _ hs,
    handleExternalIPs_congr p W1 W2 h q hq]

theorem servicePortBody_filter_offPort (p : Nat) (W1 W2 : World) (h : AgreeOffPort p W1 W2)
    (q : Nat) (svc : Service) (svcPort : ServicePort) (ips : List String) (targetPort : Int) :
    (servicePortBody W1 svc q svcPort ips targetPort).filter (fun e => !onPort p e) =
      (servicePortBody W2 svc q svcPort ips targetPort).filter (fun e => !onPort p e) := by
  by_cases hq : q = p
  · subst hq
    have e1 : ∀ W : World, (servicePortBody W svc q svcPort ips targetPort).filter
        (fun e => !onPort q e) = [] := by
      intro W
      rw [List.filter_eq_nil_iff]
      intro e he
      simp [onPort, servicePortBody_site W svc q svcPort ips targetPort e he]
    rw [e1 W1, e1 W2]
  · rw [servicePortBody_congr p W1 W2 h q hq]

theorem portMapLoop_filter_offPort (p : Nat) (W1 W2 : World) (h : AgreeOffPort p W1 W2)
    (svc : Service) (proto : String) (visited : PortMap) :
    (portMapLoop W1 svc proto visited).filter (fun e => !onPort p e) =
      (portMapLoop W2 svc proto visited).filter (fun e => !onPort p e) := by
  unfold portMapLoop servicePortsLoop
  simp only [List.filter_flatMap]
  congr 1
  funext kv
  congr 1
  funext isp
  split_ifs
  · exact servicePortBody_filter_offPort p W1 W2 h isp.1 svc isp.2 _ _
  · rfl

theorem getLbEndpoints_returns (ep : Endpoints) (h : AllTcpUdp ep) :
    ∃ maps, getLbEndpoints ep [] [] = some maps := by
  have hnil : NonEmptyIPs [] := by intro kv hkv; simp at hkv
  obtain ⟨maps, e, _⟩ :=
    subsetsLoop_spec ep.Subsets { tcpPortMap := [], udpPortMap := [] } h hnil hnil
  exact ⟨maps, e⟩

/-- C9: take two behaviours of the collaborators that answer alike every call not made
on behalf of the declared service port of index `p` (so they differ at most in whether
the NodePort VIP creation, the load-balancer lookup or the cluster VIP creation of `p`
fails), and an Endpoints object whose port entries are all TCP or UDP.  Then
`AddEndpoints` returns nil in both runs, and for every other declared port `q` it issues
the same calls with the same arguments in both runs, whatever the orders in which the
maps are visited; when the two runs visit the maps in the same order, the whole traces
agree once the calls made for `p` are left out. -/
theorem AddEndpoints_failure_is_isolated (W1 W2 : World) (ep : Endpoints) (p : Nat)
    (h : AgreeOffPort p W1 W2) (hep : AllTcpUdp ep) :
    (AddEndpoints W1 ep).2 = Outcome.returned none ∧
    (AddEndpoints W2 ep).2 = Outcome.returned none ∧
    (∀ q, q ≠ p →
      (AddEndpoints W1 ep).1.filter (onPort q) = (AddEndpoints W2 ep).1.filter (onPort q)) ∧
    (W1.mapOrder = W2.mapOrder →
      (AddEndpoints W1 ep).1.filter (fun e => !onPort p e) =
        (AddEndpoints W2 ep).1.filter (fun e => !onPort p e)) := by
  obtain ⟨maps, hmaps⟩ := getLbEndpoints_returns ep hep
  cases hs : W1.GetService [] ep.Namespace ep.Name with
  | none =>
    have hs2 : W2.GetService [] ep.Namespace ep.Name = none := by rw [← h.GetService]; exact hs
    have e1 : AddEndpoints W1 ep =
        ([{ site := [], call := Call.GetService ep.Namespace ep.Name }],
          Outcome.returned none) := by
      simp only [AddEndpoints, hs]
    have e2 : AddEndpoints W2 ep =
        ([{ site := [], call := Call.GetService ep.Namespace ep.Name }],
          Outcome.returned none) := by
      simp only [AddEndpoints, hs2]
    rw [e1, e2]
    exact ⟨rfl, rfl, fun _ _ => rfl, fun _ => rfl⟩
  | some svc =>
    have hs2 : W2.GetService [] ep.Namespace ep.Name = some svc := by
      rw [← h.GetService]; exact hs
    cases hip : W1.IsClusterIPSet svc with
    | false =>
      have hip2 : W2.IsClusterIPSet svc = false := by rw [← h.IsClusterIPSet]; exact hip
      have e1 : AddEndpoints W1 ep =
          ([{ site := [], call := Call.GetService ep.Namespace ep.Name }],
            Outcome.returned none) := by
        simp only [AddEndpoints, hs, hip]
        rfl
      have e2 : AddEndpoints W2 ep =
          ([{ site := [], call := Call.GetService ep.Namespace ep.Name }],
            Outcome.returned none) := by
        simp only [AddEndpoints, hs2, hip2]
        rfl
      rw [e1, e2]
      exact ⟨rfl, rfl, fun _ _ => rfl, fun _ => rfl⟩
    | true =>
      have hip2 : W2.IsClusterIPSet svc = true := by rw [← h.IsClusterIPSet]; exact hip
      refine ⟨?_, ?_, ?_, ?_⟩
      · rw [AddEndpoints_eq W1 ep svc maps hs hip hmaps]
      · rw [AddEndpoints_eq W2 ep svc maps hs2 hip2 hmaps]
      · intro q hq
        rw [AddEndpoints_onPort W1 ep svc maps hs hip hmaps q,
          AddEndpoints_onPort W2 ep svc maps hs2 hip2 hmaps q]
        simp only [servicePortBody_congr p W1 W2 h q hq]
      · intro hord
        rw [AddEndpoints_eq W1 ep svc maps hs hip hmaps,
          AddEndpoints_eq W2 ep svc maps hs2 hip2 hmaps]
        simp only [List.filter_cons, List.filter_append, hord,
          portMapLoop_filter_offPort p W1 W2 h]

/-- Witness of C9: two declared ports; in the second run the cluster VIP creation of
port 0 fails; the calls issued for port 1 are the same in both runs. -/
theorem AddEndpoints_failure_is_isolated_witness :
    (AddEndpoints (sampleWorld twoPortSvc) twoPortEp).2 = Outcome.returned none ∧
    (AddEndpoints failingWorld twoPortEp).2 = Outcome.returned none ∧
    (AddEndpoints (sampleWorld twoPortSvc) twoPortEp).1.filter (onPort 1) =
      (AddEndpoints failingWorld twoPortEp).1.filter (onPort 1) :=
  have h := AddEndpoints_failure_is_isolated (sampleWorld twoPortSvc) failingWorld twoPortEp 0
    { GetService := rfl, IsClusterIPSet := rfl, ServiceTypeHasNodePort := rfl,
      ServiceTypeHasClusterIP := rfl, NodeportEnable := rfl,
      createGatewaysVIP := fun _ _ => rfl, getLoadBalancer := fun _ _ => rfl,
      createLoadBalancerVIP := fun s hs => by
        funext lb vip port ips tp
        have : s ≠ [0] := by
          intro h0; subst h0; exact hs rfl
        simp [sampleWorld, failingWorld, this],
      getDefaultGatewayLoadBalancer := fun _ _ => rfl }
    (by decide)
  ⟨h.1, h.2.1, h.2.2.1 1 (by decide)⟩

/-! ### AddEndpoints: final load-balancer state and visiting order (C10) -/

theorem reverseOrder_perm : ∀ s m, (reverseOrder s m).Perm m :=
  fun _ m => List.reverse_perm m

/-- C10 (as stated) fails: the Service `clashSvc` declares two TCP ports a and b with
the same port number 80, backed on target ports 8080 and 9090.  Every lookup and
creation succeeds in both runs, which differ only in the order in which the TCP map is
visited; the entry of ("lb-TCP", "10.96.0.5", 80) ends with target port 9090 in
insertion order and with 8080 in the reverse order. -/
theorem AddEndpoints_state_order_counterexample :
    (∀ s P, ((sampleWorld clashSvc).getLoadBalancer s P).isSome = true) ∧
    (∀ s lb vip port ips tp,
      (sampleWorld clashSvc).createLoadBalancerVIP s lb vip port ips tp = true) ∧
    (∀ s P np tp ips, (sampleWorld clashSvc).createGatewaysVIP s P np tp ips = true) ∧
    finalState (fun _ _ _ _ => []) emptyLBState
        (AddEndpoints (sampleWorld clashSvc) clashEp).1 ("lb-TCP", "10.96.0.5", 80) =
      some (["10.0.0.1"], 9090) ∧
    finalState (fun _ _ _ _ => []) emptyLBState
        (AddEndpoints (withOrder (sampleWorld clashSvc) reverseOrder reverseOrder_perm)
          clashEp).1 ("lb-TCP", "10.96.0.5", 80) =
      some (["10.0.0.1"], 8080) ∧
    finalState (fun _ _ _ _ => []) emptyLBState (AddEndpoints (sampleWorld clashSvc) clashEp).1 ≠
      finalState (fun _ _ _ _ => []) emptyLBState
        (AddEndpoints (withOrder (sampleWorld clashSvc) reverseOrder reverseOrder_perm)
          clashEp).1 := by
  have h1 : finalState (fun _ _ _ _ => []) emptyLBState
        (AddEndpoints (sampleWorld clashSvc) clashEp).1 ("lb-TCP", "10.96.0.5", 80) =
      some (["10.0.0.1"], 9090) := by decide
  have h2 : finalState (fun _ _ _ _ => []) emptyLBState
        (AddEndpoints (withOrder (sampleWorld clashSvc) reverseOrder reverseOrder_perm)
          clashEp).1 ("lb-TCP", "10.96.0.5", 80) =
      some (["10.0.0.1"], 8080) := by decide
  refine ⟨fun _ _ => rfl, fun _ _ _ _ _ _ => rfl, fun _ _ _ _ _ => rfl, h1, h2, ?_⟩
  intro h
  rw [h, h2] at h1
  exact absurd h1 (by decide)

theorem applyWrites_of_not_mem (k : VIPKey) (ws : List (VIPKey × Backends)) :
    ∀ st : LBState, (∀ v, (k, v) ∉ ws) → applyWrites st ws k = st k := by
  induction ws with
  | nil => intro st _; rfl
  | cons w rest ih =>
    intro st h
    have h1 : ∀ v, (k, v) ∉ rest := fun v hv => h v (List.mem_cons_of_mem _ hv)
    have h2 : k ≠ w.1 := by
      intro hk
      exact h w.2 (by rw [hk]; exact List.mem_cons_self _ _)
    show applyWrites (upsert st w.1 w.2) rest k = st k
    rw [ih _ h1]
    simp [upsert, h2]

theorem applyWrites_of_mem (k : VIPKey) (v : Backends) (ws : List (VIPKey × Backends)) :
    ∀ st : LBState, ConsistentWrites ws → (k, v) ∈ ws → applyWrites st ws k = some v := by
  induction ws with
  | nil => intro st _ h; simp at h
  | cons w rest ih =>
    intro st hc hm
    have hc1 : ConsistentWrites rest := fun x hx y hy =>
      hc x (List.mem_cons_of_mem _ hx) y (List.mem_cons_of_mem _ hy)
    show applyWrites (upsert st w.1 w.2) rest k = some v
    by_cases hr : (k, v) ∈ rest
    · exact ih _ hc1 hr
    · have hw : w = (k, v) := by
        rcases List.mem_cons.mp hm with h | h
        · exact h.symm
        · exact absurd h hr
      have hnone : ∀ v1, (k, v1) ∉ rest := by
        intro v1 hv1
        have := hc (k, v1) (List.mem_cons_of_mem _ hv1) (k, v) hm rfl
        simp only at this
        rw [this] at hv1
        exact hr hv1
      rw [applyWrites_of_not_mem k rest _ hnone, hw]
      simp [upsert]

theorem applyWrites_perm (st : LBState) (ws1 ws2 : List (VIPKey × Backends))
    (hp : ws1.Perm ws2) (hc : ConsistentWrites ws2) :
    applyWrites st ws1 = applyWrites st ws2 := by
  have hc1 : ConsistentWrites ws1 := fun x hx y hy =>
    hc x (hp.mem_iff.mp hx) y (hp.mem_iff.mp hy)
  funext k
  by_cases h : ∃ v, (k, v) ∈ ws2
  · obtain ⟨v, hv⟩ := h
    rw [applyWrites_of_mem k v ws2 st hc hv,
      applyWrites_of_mem k v ws1 st hc1 (hp.mem_iff.mpr hv)]
  · have h2 : ∀ v, (k, v) ∉ ws2 := fun v hv => h ⟨v, hv⟩
    have h1 : ∀ v, (k, v) ∉ ws1 := fun v hv => h ⟨v, hp.mem_iff.mp hv⟩
    rw [applyWrites_of_not_mem k ws2 st h2, applyWrites_of_not_mem k ws1 st h1]

theorem finalState_perm (gw : GatewayWrites) (st : LBState)
    (t1 t2 : List Event) (hp : t1.Perm t2)
    (hc : ConsistentWrites (traceWrites gw t2)) :
    finalState gw st t1 = finalState gw st t2 :=
  applyWrites_perm st _ _ (List.Perm.flatMap_right _ hp) hc

theorem portMapLoop_perm (W : World) (svc : Service) (proto : String) (m m1 : PortMap)
    (h : m1.Perm m) :
    (portMapLoop W svc proto m1).Perm (portMapLoop W svc proto m) :=
  List.Perm.flatMap_right _ h

theorem AddEndpoints_withOrder_perm (W : World) (ep : Endpoints)
    (order : Site → PortMap → PortMap) (ho : ∀ s m, (order s m).Perm m) :
    (AddEndpoints (withOrder W order ho) ep).1.Perm (AddEndpoints W ep).1 := by
  cases hs : W.GetService [] ep.Namespace ep.Name with
  | none =>
    have e1 : AddEndpoints W ep =
        ([{ site := [], call := Call.GetService ep.Namespace ep.Name }],
          Outcome.returned none) := by
      simp only [AddEndpoints, hs]
    have e2 : AddEndpoints (withOrder W order ho) ep =
        ([{ site := [], call := Call.GetService ep.Namespace ep.Name }],
          Outcome.returned none) := by
      simp only [AddEndpoints, withOrder, hs]
    rw [e1, e2]
  | some svc =>
    cases hip : W.IsClusterIPSet svc with
    | false =>
      have e1 : AddEndpoints W ep =
          ([{ site := [], call := Call.GetService ep.Namespace ep.Name }],
            Outcome.returned none) := by
        simp only [AddEndpoints, hs, hip]
        rfl
      have e2 : AddEndpoints (withOrder W order ho) ep =
          ([{ site := [], call := Call.GetService ep.Namespace ep.Name }],
            Outcome.returned none) := by
        simp only [AddEndpoints, withOrder, hs, hip]
        rfl
      rw [e1, e2]
    | true =>
      cases hmaps : getLbEndpoints ep [] [] with
      | none =>
        rw [AddEndpoints_fault W ep svc hs hip hmaps,
          AddEndpoints_fault (withOrder W order ho) ep svc hs hip hmaps]
      | some maps =>
        rw [AddEndpoints_eq W ep svc maps hs hip hmaps,
          AddEndpoints_eq (withOrder W order ho) ep svc maps hs hip hmaps]
        refine List.Perm.cons _ (List.Perm.append ?_ ?_)
        · exact ((portMapLoop_perm W svc _ _ _ (ho [0] maps.tcpPortMap)).trans
            (portMapLoop_perm W svc _ _ _ (W.mapOrder_perm [0] maps.tcpPortMap)).symm)
        · exact ((portMapLoop_perm W svc _ _ _ (ho [1] maps.udpPortMap)).trans
            (portMapLoop_perm W svc _ _ _ (W.mapOrder_perm [1] maps.udpPortMap)).symm)

/-- C10 (amended): model each load balancer as a map from (virtual IP, virtual port) to
backends that a successful creation overwrites, and assume every lookup and creation
succeeds (so that every creation of the trace takes effect).  If no two VIP creations of
the pass bind the same (load balancer, virtual IP, virtual port) to different backends,
the final state does not depend on the order in which the TCP map and the UDP map are
visited, nor on which protocol is handled first. -/
theorem AddEndpoints_state_order_independent (W : World) (ep : Endpoints)
    (gw : GatewayWrites) (st : LBState)
    (order : Site → PortMap → PortMap) (ho : ∀ s m, (order s m).Perm m)
    (_hlookup : ∀ s P, (W.getLoadBalancer s P).isSome = true)
    (_hcreate : ∀ s lb vip port ips tp, W.createLoadBalancerVIP s lb vip port ips tp = true)
    (_hgw : ∀ s P np tp ips, W.createGatewaysVIP s P np tp ips = true)
    (hcons : ConsistentWrites (traceWrites gw (AddEndpoints W ep).1)) :
    finalState gw st (AddEndpoints (withOrder W order ho) ep).1 =
      finalState gw st (AddEndpoints W ep).1 ∧
    (∀ svc maps, W.GetService [] ep.Namespace ep.Name = some svc →
      W.IsClusterIPSet svc = true → getLbEndpoints ep [] [] = some maps →
      finalState gw st
        ({ site := [], call := Call.GetService ep.Namespace ep.Name } ::
          (portMapLoop W svc ProtocolUDP (order [1] maps.udpPortMap) ++
           portMapLoop W svc ProtocolTCP (order [0] maps.tcpPortMap))) =
        finalState gw st (AddEndpoints W ep).1) := by
  refine ⟨finalState_perm gw st _ _ (AddEndpoints_withOrder_perm W ep order ho) hcons, ?_⟩
  intro svc maps hs hip hmaps
  refine finalState_perm gw st _ _ ?_ hcons
  rw [AddEndpoints_eq W ep svc maps hs hip hmaps]
  refine List.Perm.cons _ ?_
  refine List.perm_append_comm.trans (List.Perm.append ?_ ?_)
  · exact ((portMapLoop_perm W svc _ _ _ (ho [0] maps.tcpPortMap)).trans
      (portMapLoop_perm W svc _ _ _ (W.mapOrder_perm [0] maps.tcpPortMap)).symm)
  · exact ((portMapLoop_perm W svc _ _ _ (ho [1] maps.udpPortMap)).trans
      (portMapLoop_perm W svc _ _ _ (W.mapOrder_perm [1] maps.udpPortMap)).symm)

/-- Witness of C10 (amended): two declared ports with distinct port numbers, the maps
visited in insertion order and in reverse order. -/
theorem AddEndpoints_state_order_independent_witness :
    finalState (fun _ _ _ _ => []) emptyLBState
        (AddEndpoints (withOrder (sampleWorld twoPortSvc) reverseOrder reverseOrder_perm)
          twoPortEp).1 =
      finalState (fun _ _ _ _ => []) emptyLBState (AddEndpoints (sampleWorld twoPortSvc) twoPortEp).1 :=
  (AddEndpoints_state_order_independent (sampleWorld twoPortSvc) twoPortEp (fun _ _ _ _ => [])
    emptyLBState reverseOrder reverseOrder_perm (fun _ _ => rfl) (fun _ _ _ _ _ _ => rfl)
    (fun _ _ _ _ _ => rfl) (by decide)).1

/-! ### handleNodePortLB: the NodePort backfill (C8) -/

/-- C8 (code defect, the nil-map write of `getLbEndpoints`): in a namespace holding the
Endpoints object of an SCTP NodePort service followed by the scenario's Endpoints
object, owned by a TCP NodePort service, the poll succeeds at once, `handleNodePortLB`
reaches the first object and is unwound by the fault: it issues no VIP creation at all,
although one creation is due for the second object. -/
theorem handleNodePortLB_sctp_aborts_backfill :
    (pollLoop sctpBackfillWorld "GR_node1" 0 sctpBackfillWorld.pollAttempts).2 =
      some node1Gateway ∧
    sctpBackfillWorld.GetNamespaces = some ["default"] ∧
    handleNodePortLB sctpBackfillWorld { Name := "node1" } =
      ([{ site := [0], call := Call.getGatewayLoadBalancer "GR_node1" "TCP" },
        { site := [0], call := Call.getGatewayLoadBalancer "GR_node1" "UDP" },
        { site := [0], call := Call.getGatewayPhysicalIP "GR_node1" },
        { site := [], call := Call.GetNamespaces },
        { site := [0], call := Call.GetEndpoints "default" },
        { site := [0, 0], call := Call.GetService "default" "sctp" }],
       Outcome.panicked) ∧
    expectedBackfill sctpBackfillWorld node1Gateway ["default"] =
      [{ site := [0, 1, 0],
         call := Call.createLoadBalancerVIP "GR_node1-TCP" "192.168.0.1" 30080
           ["10.0.0.1", "10.0.0.2"] 8080 }] := by
  decide

theorem flatMap_ite_singleton {α β : Type} (p : α → Prop) [DecidablePred p] (f : α → β)
    (l : List α) :
    l.flatMap (fun x => if p x then [f x] else []) =
      (l.filter (fun x => decide (p x))).map f := by
  induction l with
  | nil => rfl
  | cons x xs ih =>
    rw [List.flatMap_cons, ih, List.filter_cons]
    by_cases h : p x
    · rw [if_pos h, if_pos (by simpa using h)]
      rfl
    · rw [if_neg h, if_neg (by simpa using h)]
      rfl

theorem nodePortMapLoop_eq (site : Site) (svc : Service) (proto lb physicalIP : String)
    (visited : PortMap) :
    nodePortMapLoop site svc proto lb physicalIP visited =
      pairedNodePortVIPs site svc proto lb physicalIP visited := by
  unfold nodePortMapLoop pairedNodePortVIPs nodePortServicePortsLoop
  congr 1
  funext kv
  exact flatMap_ite_singleton
    (fun isp : Nat × ServicePort => isp.2.Protocol = proto ∧ isp.2.Name = kv.1)
    (fun isp : Nat × ServicePort =>
      ({ site := site ++ [isp.1],
         call := Call.createLoadBalancerVIP lb physicalIP isp.2.NodePort kv.2.IPs kv.2.Port } :
        Event))
    svc.Spec.Ports.enum

theorem pairedNodePortVIPs_mutations (site : Site) (svc : Service) (proto lb physicalIP : String)
    (table : PortMap) :
    (pairedNodePortVIPs site svc proto lb physicalIP table).filter
        (fun e => e.call.isMutation) =
      pairedNodePortVIPs site svc proto lb physicalIP table := by
  rw [List.filter_eq_self]
  intro e he
  unfold pairedNodePortVIPs at he
  simp only [List.mem_flatMap, List.mem_map] at he
  obtain ⟨kv, _, isp, _, h⟩ := he
  subst h
  rfl

theorem filter_mutation_cons_of_not (e : Event) (l : List Event)
    (h : e.call.isMutation = false) :
    (e :: l).filter (fun e => e.call.isMutation) = l.filter (fun e => e.call.isMutation) := by
  rw [List.filter_cons, h]
  rfl

theorem filter_mutation_GetService (s : Site) (ns name : String) (l : List Event) :
    ({ site := s, call := Call.GetService ns name } :: l).filter (fun e => e.call.isMutation) =
      l.filter (fun e => e.call.isMutation) :=
  filter_mutation_cons_of_not _ _ rfl

theorem filter_mutation_GetEndpoints (s : Site) (ns : String) (l : List Event) :
    ({ site := s, call := Call.GetEndpoints ns } :: l).filter (fun e => e.call.isMutation) =
      l.filter (fun e => e.call.isMutation) :=
  filter_mutation_cons_of_not _ _ rfl

theorem filter_mutation_GetNamespaces (s : Site) (l : List Event) :
    ({ site := s, call := Call.GetNamespaces } :: l).filter (fun e => e.call.isMutation) =
      l.filter (fun e => e.call.isMutation) :=
  filter_mutation_cons_of_not _ _ rfl

theorem endpointsLoop_backfill (W : World) (g : GatewayState) (a : Nat)
    (items : List Endpoints) :
    ∀ b, (∀ bep ∈ items.enumFrom b, qualifies W a bep.1 bep.2 = true →
        getLbEndpoints bep.2 [] [] ≠ none) →
      (endpointsLoop W g a b items).2 = Outcome.returned none ∧
      (endpointsLoop W g a b items).1.filter (fun e => e.call.isMutation) =
        (items.enumFrom b).flatMap (fun bep => endpointsBackfill W g a bep.1 bep.2) := by
  induction items with
  | nil => intro b _; exact ⟨rfl, rfl⟩
  | cons ep rest ih =>
    intro b hok
    have hrest := ih (b + 1) (fun bep hbep => hok bep (by
      rw [List.enumFrom_cons]; exact List.mem_cons_of_mem _ hbep))
    have hhead := hok (b, ep) (by rw [List.enumFrom_cons]; exact List.mem_cons_self _ _)
    rw [List.enumFrom_cons, List.flatMap_cons, ← hrest.2]
    cases hs : W.GetService [a, b] ep.Namespace ep.Name with
    | none =>
      have e : endpointsLoop W g a b (ep :: rest) =
          ({ site := [a, b], call := Call.GetService ep.Namespace ep.Name } ::
            (endpointsLoop W g a (b + 1) rest).1, (endpointsLoop W g a (b + 1) rest).2) := by
        simp only [endpointsLoop, hs]
      have eb : endpointsBackfill W g a b ep = [] := by
        simp only [endpointsBackfill, hs]
      rw [e, eb]
      exact ⟨hrest.1, filter_mutation_cons_of_not _ _ rfl⟩
    | some svc =>
      cases hn : W.ServiceTypeHasNodePort svc with
      | false =>
        have e : endpointsLoop W g a b (ep :: rest) =
            ({ site := [a, b], call := Call.GetService ep.Namespace ep.Name } ::
              (endpointsLoop W g a (b + 1) rest).1, (endpointsLoop W g a (b + 1) rest).2) := by
          simp only [endpointsLoop, hs, hn]
          rfl
        have eb : endpointsBackfill W g a b ep = [] := by
          simp only [endpointsBackfill, hs, hn]
          rfl
        rw [e, eb]
        exact ⟨hrest.1, filter_mutation_cons_of_not _ _ rfl⟩
      | true =>
        cases hm : getLbEndpoints ep [] [] with
        | none => exact absurd hm (hhead (by simp only [qualifies, hs, hn]))
        | some maps =>
          have e : endpointsLoop W g a b (ep :: rest) =
              ({ site := [a, b], call := Call.GetService ep.Namespace ep.Name } ::
                (nodePortMapLoop [a, b] svc ProtocolTCP g.k8sNSLbTCP g.physicalIP
                    (W.mapOrder [a, b, 0] maps.tcpPortMap) ++
                 nodePortMapLoop [a, b] svc ProtocolUDP g.k8sNSLbUDP g.physicalIP
                    (W.mapOrder [a, b, 1] maps.udpPortMap) ++
                 (endpointsLoop W g a (b + 1) rest).1),
               (endpointsLoop W g a (b + 1) rest).2) := by
            simp only [endpointsLoop, hs, hn, hm]
            rfl
          have eb : endpointsBackfill W g a b ep =
              pairedNodePortVIPs [a, b] svc ProtocolTCP g.k8sNSLbTCP g.physicalIP
                  (W.mapOrder [a, b, 0] maps.tcpPortMap) ++
                pairedNodePortVIPs [a, b] svc ProtocolUDP g.k8sNSLbUDP g.physicalIP
                  (W.mapOrder [a, b, 1] maps.udpPortMap) := by
            simp only [endpointsBackfill, hs, hn, hm]
            rfl
          rw [e, eb]
          refine ⟨hrest.1, ?_⟩
          simp only
          rw [filter_mutation_GetService, List.filter_append, List.filter_append,
            nodePortMapLoop_eq, nodePortMapLoop_eq, pairedNodePortVIPs_mutations,
            pairedNodePortVIPs_mutations]

theorem namespacesLoop_backfill (W : World) (g : GatewayState) (namespaces : List String) :
    ∀ a, (∀ ans ∈ namespaces.enumFrom a, ∀ items, W.GetEndpoints [ans.1] ans.2 = some items →
        ∀ bep ∈ items.enum, qualifies W ans.1 bep.1 bep.2 = true →
          getLbEndpoints bep.2 [] [] ≠ none) →
      (namespacesLoop W g a namespaces).2 = Outcome.returned none ∧
      (namespacesLoop W g a namespaces).1.filter (fun e => e.call.isMutation) =
        (namespaces.enumFrom a).flatMap (fun ans => namespaceBackfill W g ans.1 ans.2) := by
  induction namespaces with
  | nil => intro a _; exact ⟨rfl, rfl⟩
  | cons ns rest ih =>
    intro a hok
    have hrest := ih (a + 1) (fun ans hans => hok ans (by
      rw [List.enumFrom_cons]; exact List.mem_cons_of_mem _ hans))
    have hhead := hok (a, ns) (by rw [List.enumFrom_cons]; exact List.mem_cons_self _ _)
    rw [List.enumFrom_cons, List.flatMap_cons, ← hrest.2]
    cases he : W.GetEndpoints [a] ns with
    | none =>
      have e : namespacesLoop W g a (ns :: rest) =
          ({ site := [a], call := Call.GetEndpoints ns } ::
            (namespacesLoop W g (a + 1) rest).1, (namespacesLoop W g (a + 1) rest).2) := by
        simp only [namespacesLoop, he]
      have eb : namespaceBackfill W g a ns = [] := by
        simp only [namespaceBackfill, he]
      rw [e, eb]
      exact ⟨hrest.1, filter_mutation_cons_of_not _ _ rfl⟩
    | some items =>
      obtain ⟨h1, h2⟩ := endpointsLoop_backfill W g a items 0 (hhead items he)
      rcases hl : endpointsLoop W g a 0 items with ⟨evs, out⟩
      rw [hl] at h1 h2
      simp only at h1 h2
      subst h1
      have e : namespacesLoop W g a (ns :: rest) =
          ({ site := [a], call := Call.GetEndpoints ns } ::
            (evs ++ (namespacesLoop W g (a + 1) rest).1),
           (namespacesLoop W g (a + 1) rest).2) := by
        simp only [namespacesLoop, he, hl]
      have eb : namespaceBackfill W g a ns =
          items.enum.flatMap (fun bep => endpointsBackfill W g a bep.1 bep.2) := by
        simp only [namespaceBackfill, he]
      rw [e, eb]
      refine ⟨hrest.1, ?_⟩
      simp only
      rw [filter_mutation_GetEndpoints, List.filter_append, h2]
      rfl

theorem pollCondition_some (W : World) (gw : String) (k : Nat) (g : GatewayState)
    (h : (pollCondition W gw k).2 = some g) :
    g.k8sNSLbTCP = W.getGatewayLoadBalancer [k] gw TCP ∧ g.k8sNSLbTCP ≠ "" ∧
    g.k8sNSLbUDP = W.getGatewayLoadBalancer [k] gw UDP ∧ g.k8sNSLbUDP ≠ "" ∧
    g.physicalIP = W.getGatewayPhysicalIP [k] gw ∧ g.physicalIP ≠ "" := by
  unfold pollCondition at h
  simp only at h
  split_ifs at h with h1 h2 h3
  simp only [Option.some.injEq] at h
  subst h
  exact ⟨rfl, h1, rfl, h2, rfl, h3⟩

theorem pollLoop_some (W : World) (gw : String) (g : GatewayState) (n : Nat) :
    ∀ k, (pollLoop W gw k n).2 = some g →
      ∃ j, k ≤ j ∧ j < k + n ∧ (pollCondition W gw j).2 = some g := by
  induction n with
  | zero => intro k h; simp [pollLoop] at h
  | succ n ih =>
    intro k h
    rcases hc : pollCondition W gw k with ⟨evs, r⟩
    cases r with
    | some g1 =>
      simp only [pollLoop, hc, Option.some.injEq] at h
      subst h
      exact ⟨k, Nat.le_refl _, by omega, by rw [hc]⟩
    | none =>
      simp only [pollLoop, hc] at h
      obtain ⟨j, h1, h2, h3⟩ := ih (k + 1) h
      exact ⟨j, by omega, by omega, h3⟩

/-- Supporting fact for C8: when the poll succeeds with gateway state `g`,
`GetNamespaces` succeeds, and `getLbEndpoints` faults on none of the Endpoints objects
whose service exists and is of NodePort type, `handleNodePortLB` returns normally, the
load-balancer mutations it issues are exactly the due backfill (whatever the results of
the creations), and `g` holds the three non-empty values observed at one iteration. -/
theorem handleNodePortLB_backfill_without_fault (W : World) (node : Node) (g : GatewayState)
    (namespaces : List String)
    (hpoll : (pollLoop W ("GR_" ++ node.Name) 0 W.pollAttempts).2 = some g)
    (hns : W.GetNamespaces = some namespaces)
    (hok : ∀ ans ∈ namespaces.enum, ∀ items, W.GetEndpoints [ans.1] ans.2 = some items →
      ∀ bep ∈ items.enum, qualifies W ans.1 bep.1 bep.2 = true → getLbEndpoints bep.2 [] [] ≠ none) :
    (handleNodePortLB W node).2 = Outcome.returned none ∧
    (handleNodePortLB W node).1.filter (fun e => e.call.isMutation) =
      expectedBackfill W g namespaces ∧
    (∃ k, k < W.pollAttempts ∧
      g.k8sNSLbTCP = W.getGatewayLoadBalancer [k] ("GR_" ++ node.Name) TCP ∧
      g.k8sNSLbTCP ≠ "" ∧
      g.k8sNSLbUDP = W.getGatewayLoadBalancer [k] ("GR_" ++ node.Name) UDP ∧
      g.k8sNSLbUDP ≠ "" ∧
      g.physicalIP = W.getGatewayPhysicalIP [k] ("GR_" ++ node.Name) ∧
      g.physicalIP ≠ "") := by
  obtain ⟨h1, h2⟩ := namespacesLoop_backfill W g namespaces 0 hok
  have hp := pollLoop_probes W ("GR_" ++ node.Name) W.pollAttempts 0
  rcases hc : pollLoop W ("GR_" ++ node.Name) 0 W.pollAttempts with ⟨evs, r⟩
  rw [hc] at hpoll hp
  simp only at hpoll hp
  subst hpoll
  have hf : evs.filter (fun e => e.call.isMutation) = [] := by
    rw [List.filter_eq_nil_iff]
    intro e he
    have := hp e he
    cases hcall : e.call <;> rw [hcall] at this <;> simp [Call.isProbe, Call.isMutation] at this ⊢
  have e : handleNodePortLB W node =
      ((evs ++ { site := [], call := Call.GetNamespaces } :: (namespacesLoop W g 0 namespaces).1),
       (namespacesLoop W g 0 namespaces).2) := by
    simp only [handleNodePortLB, hc, hns]
  rw [e]
  refine ⟨h1, ?_, ?_⟩
  · simp only
    rw [List.filter_append, hf, filter_mutation_GetNamespaces, h2]
    rfl
  · obtain ⟨j, _, hj, hcond⟩ := pollLoop_some W _ g W.pollAttempts 0 (by rw [hc])
    exact ⟨j, by omega, pollCondition_some W _ j g hcond⟩

/-- Witness of the backfill without a fault: one namespace, the scenario's Endpoints
object owned by a NodePort service. -/
theorem handleNodePortLB_backfill_without_fault_witness :
    (handleNodePortLB backfillWorld { Name := "node1" }).2 = Outcome.returned none ∧
    (handleNodePortLB backfillWorld { Name := "node1" }).1.filter
        (fun e => e.call.isMutation) =
      [{ site := [0, 0, 0],
         call := Call.createLoadBalancerVIP "GR_node1-TCP" "192.168.0.1" 30080
           ["10.0.0.1", "10.0.0.2"] 8080 }] :=
  have h := handleNodePortLB_backfill_without_fault backfillWorld { Name := "node1" }
    node1Gateway ["default"] (by decide) rfl (by
      intro ans _ items hitems bep hbep _
      have hi : items = [scenarioEp] := by
        have hget : backfillWorld.GetEndpoints [ans.1] ans.2 = some [scenarioEp] := rfl
        rw [hget] at hitems
        exact (Option.some.inj hitems).symm
      subst hi
      have hb : bep = (0, scenarioEp) := by simpa [List.enum] using hbep
      subst hb
      show getLbEndpoints scenarioEp [] [] ≠ none
      rw [scenario_table]
      exact Option.some_ne_none _)
  ⟨h.1, h.2.1⟩

end Ovn
